import Mathlib

/-!
Verification development for the dashboard-JSON → HCL generator
(`script.js` of the datadog-hcl-generator repository).

The JavaScript source is shallowly embedded below.  JavaScript strings
are modelled as Lean `String`s, JSON numbers as `Int` (the generator
never performs arithmetic on them, it only prints them), and JSON
values of unconstrained shape as the inductive `HValue`.  Optional /
possibly-absent object fields are modelled as `Option`; JavaScript
truthiness (`""`, `0`, `null`, `false` are falsy) is modelled by
explicit `...Truthy` / `jsOr...` helpers.  Each definition carries a
comment naming the source function it embeds.
-/

/-- Characters treated as whitespace by the JavaScript regex class `\s`
(restricted to the ASCII whitespace characters that can actually occur
in the generator's output). -/
def isWsChar (c : Char) : Bool :=
  c = (' ') ∨ c = ('\t') ∨ c = ('\n') ∨ c = ('\r') ∨ c = ('\x0b') ∨ c = ('\x0c')

/-- Drop trailing whitespace characters. -/
def dropTrailingWs (l : List Char) : List Char := (l.reverse.dropWhile isWsChar).reverse

/-- JavaScript `String.trim()` (structural, so proofs can evaluate it):
strip leading and trailing whitespace. -/
def jsTrim (s : String) : String := String.mk (dropTrailingWs (s.toList.dropWhile isWsChar))

/-- JavaScript `String.startsWith`. -/
def strStartsWith (s pat : String) : Bool := pat.toList.isPrefixOf s.toList

/-- JavaScript `String.endsWith`. -/
def strEndsWith (s pat : String) : Bool := pat.toList.reverse.isPrefixOf s.toList.reverse

/-- ASCII lower-casing of a string, `String.toLowerCase`. -/
def strToLower (s : String) : String := String.mk (s.toList.map Char.toLower)

/-- JavaScript `Array.join(sep)` / Lean `String.intercalate`. -/
def jsJoin (sep : String) : List String → String
  | [] => ""
  | [x] => x
  | x :: y :: rest => x ++ sep ++ jsJoin sep (y :: rest)

/-- Splitting on a separator, leftmost non-overlapping occurrences
(`String.split(sep)`). -/
def splitOnAux (sep : List Char) (acc : List Char) : List Char → List (List Char)
  | [] => [acc.reverse]
  | c :: rest =>
    if sep.isPrefixOf (c :: rest) then
      acc.reverse :: splitOnAux sep [] ((c :: rest).drop (max sep.length 1))
    else splitOnAux sep (c :: acc) rest
termination_by l => l.length
decreasing_by
  all_goals simp [List.length_drop]

/-- String-level splitting; the separators used in this development are
non-empty, for which `drop (max sep.length 1)` is `drop sep.length`. -/
def jsSplitOn (s sep : String) : List String :=
  (splitOnAux sep.toList [] s.toList).map String.mk

/-- Does `p` hold of some suffix of the list?  This is the `test` of an
unanchored JavaScript regex whose pattern is modelled by `p` on the
text starting at the match position. -/
def anySuffix (p : List Char → Bool) : List Char → Bool
  | [] => p []
  | c :: rest => p (c :: rest) || anySuffix p rest

/-- JavaScript `String.includes(pat)`. -/
def containsSub (s pat : String) : Bool :=
  anySuffix (fun l => pat.toList.isPrefixOf l) s.toList

/-- Replace every occurrence of the character `c` by the replacement
list `rep` — the model of the JavaScript `String.replace(/c/g, rep)`
calls in `escapeHCLString`, each of which targets a single character. -/
def jsReplaceChar (c : Char) (rep : List Char) : List Char → List Char
  | [] => []
  | x :: xs => (if x = c then rep else [x]) ++ jsReplaceChar c rep xs

/-- Embeds the escape chain of `escapeHCLString` (script.js:1476-1488):
backslash first, then double quote, newline, carriage return, tab. -/
def escapeHCLChars (l : List Char) : List Char :=
  jsReplaceChar ('\t') (['\\', 't'])
    (jsReplaceChar ('\r') (['\\', 'r'])
      (jsReplaceChar ('\n') (['\\', 'n'])
        (jsReplaceChar ('"') (['\\', '"'])
          (jsReplaceChar ('\\') (['\\', '\\']) l))))

/-- The string branch of `escapeHCLString`: escape and wrap in quotes. -/
def escapeHCLStr (s : String) : String :=
  "\"" ++ String.mk (escapeHCLChars s.toList) ++ "\""

/-- Character-wise description of the escape chain: each of the five
special characters becomes its two-character escape, everything else is
kept.  Used to reason about `escapeHCLChars`. -/
def escChar (c : Char) : List Char :=
  if c = ('\\') then ['\\', '\\']
  else if c = ('"') then ['\\', '"']
  else if c = ('\n') then ['\\', 'n']
  else if c = ('\r') then ['\\', 'r']
  else if c = ('\t') then ['\\', 't']
  else [c]

/-- Characters kept verbatim by the resource-name sanitiser: the
JavaScript character class `[a-z0-9_]` of `generateResourceName`. -/
def isNameChar (c : Char) : Bool :=
  (('a') ≤ c ∧ c ≤ ('z')) ∨ (('0') ≤ c ∧ c ≤ ('9')) ∨ c = ('_')

/-- Embeds `.replace(/[^a-z0-9_]/g, '_')`. -/
def replaceNonNameChars (l : List Char) : List Char :=
  l.map (fun c => if isNameChar c then c else ('_'))

/-- Embeds `.replace(/_+/g, '_')`: collapse every run of underscores to
a single underscore. -/
def collapseUnderscores : List Char → List Char
  | [] => []
  | [c] => [c]
  | c :: d :: rest =>
    if c = ('_') ∧ d = ('_') then collapseUnderscores (d :: rest)
    else c :: collapseUnderscores (d :: rest)

/-- Embeds the `^_` half of `.replace(/^_|_$/g, '')`: remove one
leading underscore if present. -/
def dropFirstUnderscore : List Char → List Char
  | ('_') :: rest => rest
  | l => l

/-- Embeds the `_$` half of `.replace(/^_|_$/g, '')`: remove one
trailing underscore if present. -/
def dropLastUnderscore : List Char → List Char
  | [] => []
  | [c] => if c = ('_') then [] else [c]
  | c :: rest => c :: dropLastUnderscore rest

/-- The sanitising chain of `generateResourceName` (script.js:1466-1472,
the `preserveOriginalNamingConvention = false` branch, the only one the
generator invokes): lowercase, replace characters outside `[a-z0-9_]`,
collapse runs of underscores, strip one leading and one trailing
underscore (after collapsing, runs are single so this is a full trim),
truncate to 50 characters. -/
def sanitizeResourceName (title : String) : String :=
  String.mk
    ((dropLastUnderscore
        (dropFirstUnderscore
          (collapseUnderscores
            (replaceNonNameChars (title.toList.map Char.toLower))))).take 50)

/-- Embeds `generateResourceName(title, false)` (script.js:1457-1474):
the sanitised title, or the fallback when sanitisation leaves nothing
(the JavaScript `|| 'imported_dashboard'`). -/
def generateResourceName (title : String) : String :=
  let r := sanitizeResourceName title
  if r = "" then "imported_dashboard" else r

/-- Underscore test, the trim predicate of the specification's
resource-name pipeline. -/
def isUnderscore (c : Char) : Bool := c = ('_')

/-- Resource-name pipeline exactly as the specification words it
(claim C2): lower-cased, characters outside lowercase letters / digits /
underscore replaced by underscore, repeated underscores collapsed to
one, all leading and trailing underscores trimmed, truncated to 50
characters.  No fallback for a sanitised-empty result. -/
def specSanitizeResourceName (title : String) : String :=
  String.mk
    ((((((title.toList.map Char.toLower).map
          (fun c => if isNameChar c then c else ('_')))
        |> collapseUnderscores
        |>.dropWhile isUnderscore).reverse.dropWhile isUnderscore).reverse).take 50)

/-- No two adjacent underscores occur in the list. -/
def noAdjUnderscore : List Char → Bool
  | [] => true
  | [_] => true
  | a :: b :: t =>
    if a = ('_') ∧ b = ('_') then false else noAdjUnderscore (b :: t)

/-- JSON values of unconstrained shape, as the generator receives them
from `JSON.parse`.  Numbers are modelled as integers (the generator
only ever prints them). -/
inductive HValue where
  | null : HValue
  | bool : Bool → HValue
  | num : Int → HValue
  | str : String → HValue
  | arr : List HValue → HValue
  | obj : List (String × HValue) → HValue

/-- JavaScript truthiness of a JSON value: `null`, `false`, `0` and the
empty string are falsy; arrays and objects (even empty) are truthy. -/
def HValue.truthy : HValue → Bool
  | .null => false
  | .bool b => b
  | .num n => n ≠ 0
  | .str s => s ≠ ""
  | .arr _ => true
  | .obj _ => true

/-- Truthiness of a possibly-absent field (absent = `undefined` =
falsy). -/
def optTruthy : Option HValue → Bool
  | some v => v.truthy
  | none => false

/-- Truthiness of a possibly-absent string field. -/
def optStrTruthy : Option String → Bool
  | some s => s ≠ ""
  | none => false

/-- JavaScript `a || dflt` for a possibly-absent string `a`. -/
def jsOrStr (o : Option String) (dflt : String) : String :=
  match o with
  | some s => if s = "" then dflt else s
  | none => dflt

/-- JavaScript `a || dflt` for a possibly-absent number `a` (zero is
falsy, so a present `0` also yields the default). -/
def jsOrInt (o : Option Int) (dflt : Int) : Int :=
  match o with
  | some n => if n = 0 then dflt else n
  | none => dflt

/-- Rendering of a boolean by a JavaScript template literal. -/
def boolStr (b : Bool) : String := if b then "true" else "false"

/-- Property lookup on a parsed JSON object.  `JSON.parse` keeps the
last occurrence of a duplicated key, hence the reversed lookup. -/
def lookupProp (props : List (String × HValue)) (k : String) : Option HValue :=
  props.reverse.lookup k

/-- One hexadecimal digit (lowercase), for `\uXXXX` escapes. -/
def hexDigit (n : Nat) : Char :=
  if n < 10 then Char.ofNat (('0').toNat + n) else Char.ofNat (('a').toNat + n - 10)

/-- Four-digit hexadecimal rendering of a code point below 0x10000. -/
def hex4 (n : Nat) : List Char :=
  [hexDigit (n / 4096 % 16), hexDigit (n / 256 % 16), hexDigit (n / 16 % 16), hexDigit (n % 16)]

/-- JSON string escaping as performed by `JSON.stringify`. -/
def jsonEscapeChar (c : Char) : List Char :=
  if c = ('"') then ['\\', '"']
  else if c = ('\\') then ['\\', '\\']
  else if c = ('\x08') then ['\\', 'b']
  else if c = ('\x0c') then ['\\', 'f']
  else if c = ('\n') then ['\\', 'n']
  else if c = ('\r') then ['\\', 'r']
  else if c = ('\t') then ['\\', 't']
  else if c.toNat < 32 then ('\\') :: ('u') :: hex4 c.toNat
  else [c]

/-- A JSON string literal as produced by `JSON.stringify`. -/
def jsonQuote (s : String) : String :=
  "\"" ++ String.mk (s.toList.flatMap jsonEscapeChar) ++ "\""

mutual

/-- Compact `JSON.stringify(value)` (no indent argument), as used for
arrays and objects in `formatPropertyValue`, `notify_list`, `tags` and
the template-variable fields. -/
def jsonStringify : HValue → String
  | .null => "null"
  | .bool b => boolStr b
  | .num n => toString n
  | .str s => jsonQuote s
  | .arr xs => "[" ++ jsonStringifyList xs ++ "]"
  | .obj fs => "\x7b" ++ jsonStringifyFields fs ++ "\x7d"

/-- Comma-separated compact rendering of array elements. -/
def jsonStringifyList : List HValue → String
  | [] => ""
  | [x] => jsonStringify x
  | x :: y :: rest => jsonStringify x ++ "," ++ jsonStringifyList (y :: rest)

/-- Comma-separated compact rendering of object fields. -/
def jsonStringifyFields : List (String × HValue) → String
  | [] => ""
  | [(k, v)] => jsonQuote k ++ ":" ++ jsonStringify v
  | (k, v) :: f :: rest => jsonQuote k ++ ":" ++ jsonStringify v ++ "," ++ jsonStringifyFields (f :: rest)

end

mutual

/-- Rendering of a JSON value by a JavaScript template literal
(`${value}`): strings verbatim, arrays joined with commas (a `null`
element renders as the empty string), objects as `[object Object]`. -/
def hvToJSString : HValue → String
  | .null => "null"
  | .bool b => boolStr b
  | .num n => toString n
  | .str s => s
  | .arr xs => hvArrayJoin xs
  | .obj _ => "[object Object]"

/-- JavaScript `Array.prototype.toString`, i.e. `join(',')`. -/
def hvArrayJoin : List HValue → String
  | [] => ""
  | [x] => hvArrayElem x
  | x :: y :: rest => hvArrayElem x ++ "," ++ hvArrayJoin (y :: rest)

/-- One array element under `join`: `null` renders empty. -/
def hvArrayElem : HValue → String
  | .null => ""
  | v => hvToJSString v

end

/-- Indentation used by `JSON.stringify(value, null, 4)`. -/
def pad4 (d : Nat) : String := String.mk (List.replicate (4 * d) (' '))

mutual

/-- Pretty `JSON.stringify(value, null, 4)`, used for the raw-definition
dump in the unknown-widget commentary. -/
def prettyJson (d : Nat) : HValue → String
  | .arr [] => "[]"
  | .obj [] => "\x7b\x7d"
  | .arr (x :: xs) => "[\n" ++ prettyJsonList (d + 1) (x :: xs) ++ "\n" ++ pad4 d ++ "]"
  | .obj (f :: fs) => "\x7b\n" ++ prettyJsonFields (d + 1) (f :: fs) ++ "\n" ++ pad4 d ++ "\x7d"
  | .null => "null"
  | .bool b => boolStr b
  | .num n => toString n
  | .str s => jsonQuote s

/-- Pretty rendering of array elements, one per line. -/
def prettyJsonList (d : Nat) : List HValue → String
  | [] => ""
  | [x] => pad4 d ++ prettyJson d x
  | x :: y :: rest => pad4 d ++ prettyJson d x ++ ",\n" ++ prettyJsonList d (y :: rest)

/-- Pretty rendering of object fields, one per line. -/
def prettyJsonFields (d : Nat) : List (String × HValue) → String
  | [] => ""
  | [(k, v)] => pad4 d ++ jsonQuote k ++ ": " ++ prettyJson d v
  | (k, v) :: f :: rest => pad4 d ++ jsonQuote k ++ ": " ++ prettyJson d v ++ ",\n" ++ prettyJsonFields d (f :: rest)

end

/-- A `search` sub-object of a logs query (`query.search.query`). -/
structure QSearch where
  query : Option String

/-- A `compute` sub-object of a logs query. -/
structure QCompute where
  aggregation : Option String
  metric : Option String

/-- One entry of a request's modern `queries` sequence
(specification §3 "Query"). -/
structure Query where
  data_source : Option String
  name : Option String
  query : Option String
  aggregator : Option String
  metric : Option HValue
  search : Option QSearch
  compute : Option QCompute

/-- One `conditional_formats` entry. -/
structure CFormat where
  comparator : Option String
  hide_value : Option Bool
  palette : Option String
  value : Option Int

/-- A formula's nested `limit` object. -/
structure FLimit where
  count : Option Int
  order : Option String

/-- One entry of a request's `formulas` sequence.  The expression may
arrive under either the `formula` or the `formula_expression` key.
`aliasName` models the source's `alias` field (`alias` is a Lean
keyword). -/
structure Formula where
  aliasName : Option String
  formula : Option String
  formula_expression : Option String
  limit : Option FLimit

/-- A request's `style` sub-object. -/
structure RStyle where
  palette : Option String
  line_type : Option String
  line_width : Option String

/-- One request object (specification §3 "Request"). -/
structure Request where
  q : Option String
  aggregator : Option String
  display_type : Option String
  on_right_yaxis : Option Bool
  conditional_formats : Option (List CFormat)
  formulas : Option (List Formula)
  queries : Option (List Query)
  style : Option RStyle

/-- Embeds `hasValidRequestContent` (script.js:713-717): a flat query
string, or a non-empty `queries` sequence, or a non-empty `formulas`
sequence. -/
def hasValidRequestContent (r : Request) : Bool :=
  optStrTruthy r.q ||
    (match r.queries with
     | some l => decide (l.length > 0)
     | none => false) ||
    (match r.formulas with
     | some l => decide (l.length > 0)
     | none => false)

/-- The `${formula.formula || formula.formula_expression}` template of
the formula block: the `||` yields the second operand's value when the
first is falsy, and an absent result renders as `undefined`. -/
def formulaExprText (f : Formula) : String :=
  match (if optStrTruthy f.formula then f.formula else f.formula_expression) with
  | some s => s
  | none => "undefined"

/-- One `conditional_formats` block, shared verbatim by the modern and
legacy request emitters. -/
def cformatBlock (f : CFormat) : String :=
  "        conditional_formats \x7b\n" ++
    (if optStrTruthy f.comparator then
      "          comparator = \"" ++ f.comparator.getD ("") ++ "\"\n" else "") ++
    (match f.hide_value with
     | some b => "          hide_value = " ++ boolStr b ++ "\n"
     | none => "") ++
    (if optStrTruthy f.palette then
      "          palette    = \"" ++ f.palette.getD ("") ++ "\"\n" else "") ++
    (match f.value with
     | some n => "          value      = " ++ toString n ++ "\n"
     | none => "") ++
    "        \x7d\n"

/-- One `formula` block of the modern request emitter
(script.js:595-611). -/
def formulaBlock (f : Formula) : String :=
  "\n        formula \x7b\n" ++
    (if optStrTruthy f.aliasName then
      "          alias              = " ++ escapeHCLStr (f.aliasName.getD ("")) ++ "\n"
     else "") ++
    "          formula_expression = \"" ++ formulaExprText f ++ "\"\n" ++
    (match f.limit with
     | some lim =>
       "\n          limit \x7b\n" ++
         (match lim.count with
          | some n => if n ≠ 0 then "            count = " ++ toString n ++ "\n" else ""
          | none => "") ++
         (if optStrTruthy lim.order then
           "            order = \"" ++ lim.order.getD ("") ++ "\"\n" else "") ++
         "          \x7d\n"
     | none => "") ++
    "        \x7d\n"

/-- Embeds `generateQueryBlock` (script.js:647-680): metric queries by
data source or presence of a metric/query field, log queries by data
source, anything else an empty `query` block. -/
def generateQueryBlock (q : Query) : String :=
  "\n        query \x7b\n" ++
    (if q.data_source = some ("metrics") ∨ optTruthy q.metric ∨ optStrTruthy q.query then
      "\n          metric_query \x7b\n" ++
        (if optStrTruthy q.aggregator then
          "            aggregator  = \"" ++ q.aggregator.getD ("") ++ "\"\n" else "") ++
        (if optStrTruthy q.data_source then
          "            data_source = \"" ++ q.data_source.getD ("") ++ "\"\n" else "") ++
        (if optStrTruthy q.name then
          "            name        = \"" ++ q.name.getD ("") ++ "\"\n" else "") ++
        (if optStrTruthy q.query then
          "            query       = " ++ escapeHCLStr (q.query.getD ("")) ++ "\n" else "") ++
        "          \x7d\n"
     else if q.data_source = some ("logs") then
      "\n          log_query \x7b\n" ++
        (if optStrTruthy q.name then
          "            name = \"" ++ q.name.getD ("") ++ "\"\n" else "") ++
        (if optStrTruthy q.data_source then
          "            data_source = \"" ++ q.data_source.getD ("") ++ "\"\n" else "") ++
        (match q.search with
         | some se =>
           if optStrTruthy se.query then
             "            search \x7b\n" ++
               "              query = " ++ escapeHCLStr (se.query.getD ("")) ++ "\n" ++
               "            \x7d\n"
           else ""
         | none => "") ++
        "          \x7d\n"
     else "") ++
    "        \x7d\n"

/-- The request-level `style` block of the modern emitter
(script.js:624-630). -/
def requestStyleBlock (st : RStyle) : String :=
  "\n        style \x7b\n" ++
    (if optStrTruthy st.palette then
      "          palette = \"" ++ st.palette.getD ("") ++ "\"\n" else "") ++
    (if optStrTruthy st.line_type then
      "          line_type  = \"" ++ st.line_type.getD ("") ++ "\"\n" else "") ++
    (if optStrTruthy st.line_width then
      "          line_width = \"" ++ st.line_width.getD ("") ++ "\"\n" else "") ++
    "        \x7d\n"

/-- Body of one emitted modern request block (the inside of the
`if (this.hasValidRequestContent(request))` branch of
`generateModernRequests`, script.js:572-633). -/
def modernRequestBody (r : Request) : String :=
  (if optStrTruthy r.display_type then
    "        display_type   = \"" ++ r.display_type.getD ("") ++ "\"\n" else "") ++
  (match r.on_right_yaxis with
   | some b => "        on_right_yaxis = " ++ boolStr b ++ "\n"
   | none => "") ++
  (match r.conditional_formats with
   | some fs => "\n" ++ String.join (fs.map cformatBlock)
   | none => "") ++
  (match r.formulas with
   | some fs => String.join (fs.map formulaBlock)
   | none => "") ++
  (match r.queries with
   | some qs => String.join (qs.map generateQueryBlock)
   | none =>
     if optStrTruthy r.q then
       "\n        query \x7b\n" ++
         "          metric_query \x7b\n" ++
         "            aggregator  = \"" ++ jsOrStr r.aggregator ("avg") ++ "\"\n" ++
         "            data_source = \"metrics\"\n" ++
         "            name        = \"query1\"\n" ++
         "            query       = " ++ escapeHCLStr (r.q.getD ("")) ++ "\n" ++
         "          \x7d\n" ++
         "        \x7d\n"
     else "") ++
  (match r.style with
   | some st => requestStyleBlock st
   | none => "")

/-- Embeds `generateModernRequests` (script.js:568-645): requests with
valid content are emitted as `request` blocks, the rest are skipped. -/
def generateModernRequests : List Request → String
  | [] => ""
  | r :: rest =>
    (if hasValidRequestContent r then
      "\n      request \x7b\n" ++ modernRequestBody r ++ "      \x7d\n"
     else "") ++ generateModernRequests rest

/-- The flat `q` value the legacy emitter derives from the first entry
of a modern `queries` sequence (script.js:2758-2781): the metric query
expression, else the log search expression, else — for a logs query — a
string synthesised from the compute aggregation and metric, with any
log search text appended (unreachable there, since the search branch
was taken first; kept verbatim from the source). -/
def legacyQFromQuery (q : Query) : Option String :=
  if optStrTruthy q.query then q.query
  else if (match q.search with
           | some se => optStrTruthy se.query
           | none => false) then
    match q.search with
    | some se => se.query
    | none => none
  else if q.data_source = some ("logs") then
    let logQuery :=
      (match q.compute with
       | some co =>
         if optStrTruthy co.aggregation then
           co.aggregation.getD ("") ++ ":" ++
             (if optStrTruthy co.metric then co.metric.getD ("") else "")
         else ""
       | none => "")
    let logQuery :=
      (match q.search with
       | some se =>
         if optStrTruthy se.query ∧ logQuery = "" then se.query.getD ("")
         else if optStrTruthy se.query then logQuery ++ " " ++ se.query.getD ("")
         else logQuery
       | none => logQuery)
    if logQuery ≠ "" then some logQuery else none
  else none

/-- The `q` line of a legacy request block (script.js:2754-2782). -/
def legacyQPart (r : Request) : String :=
  if optStrTruthy r.q then
    "        q          = " ++ escapeHCLStr (r.q.getD ("")) ++ "\n"
  else
    match r.queries with
    | some qs =>
      (match qs.head? with
       | some q =>
         (match legacyQFromQuery q with
          | some v => "        q          = " ++ escapeHCLStr v ++ "\n"
          | none => "")
       | none => "")
    | none => ""

/-- Body of one emitted legacy request block (the inside of the
`if (this.hasValidRequestContent(request))` branch of
`generateLegacyRequests`, script.js:2746-2815): aggregator first, then
the flat `q` (directly or downgraded from the first modern query), then
display type, right-axis flag, conditional formats and style. -/
def legacyRequestBody (r : Request) : String :=
  (if optStrTruthy r.aggregator then
    "        aggregator = \"" ++ r.aggregator.getD ("") ++ "\"\n" else "") ++
  legacyQPart r ++
  (if optStrTruthy r.display_type then
    "        display_type   = \"" ++ r.display_type.getD ("") ++ "\"\n" else "") ++
  (match r.on_right_yaxis with
   | some b => "        on_right_yaxis = " ++ boolStr b ++ "\n"
   | none => "") ++
  (match r.conditional_formats with
   | some fs => "\n" ++ String.join (fs.map cformatBlock)
   | none => "") ++
  (match r.style with
   | some st =>
     "\n        style \x7b\n" ++
       (if optStrTruthy st.palette then
         "          palette    = \"" ++ st.palette.getD ("") ++ "\"\n" else "") ++
       (if optStrTruthy st.line_type then
         "          line_type  = \"" ++ st.line_type.getD ("") ++ "\"\n" else "") ++
       (if optStrTruthy st.line_width then
         "          line_width = \"" ++ st.line_width.getD ("") ++ "\"\n" else "") ++
       "        \x7d\n"
   | none => "")

/-- Embeds `generateLegacyRequests` (script.js:2741-2819): requests
with valid content are emitted as `request` blocks, the rest are
skipped. -/
def generateLegacyRequests : List Request → String
  | [] => ""
  | r :: rest =>
    (if hasValidRequestContent r then
      "\n      request \x7b\n" ++ legacyRequestBody r ++ "      \x7d\n"
     else "") ++ generateLegacyRequests rest

/-- A widget's `layout` rectangle. -/
structure WLayout where
  x : Option Int
  y : Option Int
  width : Option Int
  height : Option Int

/-- A definition's `yaxis` sub-object.  `min`/`max` may be numbers or
strings in dashboard exports, hence `HValue`. -/
structure Yaxis where
  label : Option String
  scale : Option String
  min : Option HValue
  max : Option HValue
  include_zero : Option Bool

/-- One entry of a definition's `events` sequence. -/
structure DEvent where
  q : Option String
  tags_execution : Option String

/-- A definition-level `style` sub-object. -/
structure DStyle where
  palette : Option String
  palette_flip : Option Bool

/-- A definition-level `view` sub-object. -/
structure DView where
  focus : Option String

/-- A definition-level `sort` sub-object. -/
structure DSort where
  column : Option String
  order : Option String

/-- Capability flags of a registry entry (`widgetConfig.features`); an
absent flag is falsy in the source, modelled as `false`. -/
structure Features where
  supportsYAxis : Bool
  supportsEvents : Bool
  supportsStyle : Bool
  supportsView : Bool
  supportsSort : Bool
  hasNestedWidgets : Bool

/-- One Schema Registry entry (specification §3). -/
structure WidgetConfig where
  blockName : String
  commonProperties : List String
  specificProperties : List (String × String)
  requestStructure : String
  features : Features

/-- The non-recursive part of a widget definition.  Scalar fields that
the source reads by dynamic property lookup (`definition[prop]`),
including `title`, live in `props`; the structured fields the source
reads by name are separate. -/
structure DefCore where
  type : Option String
  live_span : Option String
  props : List (String × HValue)
  requests : Option (List Request)
  yaxis : Option Yaxis
  events : Option (List DEvent)
  style : Option DStyle
  view : Option DView
  sort : Option DSort

mutual

/-- A widget definition: its non-recursive fields plus the nested
widget list of group-kind widgets. -/
inductive WDef where
  | mk : DefCore → Option (List Widget) → WDef

/-- One widget: identifier, layout, definition (specification §3). -/
inductive Widget where
  | mk : Option String → Option WLayout → Option WDef → Widget

end

/-- The empty definition the source substitutes for an absent one
(`widget.definition || {}`). -/
def emptyDefCore : DefCore :=
  ⟨none, none, [], none, none, none, none, none, none⟩

/-- JavaScript `typeof v === 'object'` for a present JSON value
(arrays and `null` also have typeof `object`; the `null` case would
crash the source's `timeseries_background` branch and is excluded
there by the call sites this models). -/
def HValue.isObjLike : HValue → Bool
  | .obj _ => true
  | .arr _ => true
  | _ => false

/-- Embeds `formatPropertyValue` (script.js:719-732): strings escaped,
booleans and numbers printed bare, arrays and objects JSON-stringified,
anything else coerced to its quoted string form. -/
def formatPropertyValue : HValue → String
  | .str s => escapeHCLStr s
  | .bool b => boolStr b
  | .num n => toString n
  | .arr xs => jsonStringify (.arr xs)
  | .obj fs => jsonStringify (.obj fs)
  | .null => "\"null\""

/-- Embeds `generateYAxisConfiguration` (script.js:488-509). -/
def generateYAxisConfiguration (y : Yaxis) : String :=
  "\n      yaxis \x7b\n" ++
    (if optStrTruthy y.label then
      "        label        = " ++ escapeHCLStr (y.label.getD ("")) ++ "\n" else "") ++
    (if optStrTruthy y.scale then
      "        scale        = \"" ++ y.scale.getD ("") ++ "\"\n" else "") ++
    (match y.min with
     | some v => "        min          = \"" ++ hvToJSString v ++ "\"\n"
     | none => "") ++
    (match y.max with
     | some v => "        max          = \"" ++ hvToJSString v ++ "\"\n"
     | none => "") ++
    (match y.include_zero with
     | some b => "        include_zero = " ++ boolStr b ++ "\n"
     | none => "") ++
    "      \x7d\n"

/-- Embeds `generateEventsConfiguration` (script.js:511-529). -/
def generateEventsConfiguration (events : List DEvent) : String :=
  String.join (events.map (fun e =>
    "\n      event \x7b\n" ++
      (if optStrTruthy e.q then
        "        q = " ++ escapeHCLStr (e.q.getD ("")) ++ "\n" else "") ++
      (if optStrTruthy e.tags_execution then
        "        tags_execution = \"" ++ e.tags_execution.getD ("") ++ "\"\n" else "") ++
      "      \x7d\n"))

/-- Embeds `generateStyleConfiguration` (script.js:531-543). -/
def generateStyleConfiguration (st : DStyle) : String :=
  "\n      style \x7b\n" ++
    (if optStrTruthy st.palette then
      "        palette = \"" ++ st.palette.getD ("") ++ "\"\n" else "") ++
    (match st.palette_flip with
     | some b => "        palette_flip = " ++ boolStr b ++ "\n"
     | none => "") ++
    "      \x7d\n"

/-- Embeds `generateViewConfiguration` (script.js:545-553). -/
def generateViewConfiguration (v : DView) : String :=
  "\n      view \x7b\n" ++
    (if optStrTruthy v.focus then
      "        focus = \"" ++ v.focus.getD ("") ++ "\"\n" else "") ++
    "      \x7d\n"

/-- Embeds `generateSortConfiguration` (script.js:555-566). -/
def generateSortConfiguration (s : DSort) : String :=
  "\n      sort \x7b\n" ++
    (if optStrTruthy s.column then
      "        column = \"" ++ s.column.getD ("") ++ "\"\n" else "") ++
    (if optStrTruthy s.order then
      "        order = \"" ++ s.order.getD ("") ++ "\"\n" else "") ++
    "      \x7d\n"

/-- The `widget_layout` block of a top-level widget
(script.js:372-380): fixed field order, `|| 8` / `|| 12` / `|| 0`
defaults. -/
def widgetLayoutBlock (l : WLayout) : String :=
  "    widget_layout \x7b\n" ++
    "      height          = " ++ toString (jsOrInt l.height 8) ++ "\n" ++
    "      is_column_break = false\n" ++
    "      width           = " ++ toString (jsOrInt l.width 12) ++ "\n" ++
    "      x               = " ++ toString (jsOrInt l.x 0) ++ "\n" ++
    "      y               = " ++ toString (jsOrInt l.y 0) ++ "\n" ++
    "    \x7d\n\n"

/-- The `widget_layout` block of a nested widget (script.js:688-696),
identical up to indentation. -/
def nestedWidgetLayoutBlock (l : WLayout) : String :=
  "        widget_layout \x7b\n" ++
    "          height          = " ++ toString (jsOrInt l.height 8) ++ "\n" ++
    "          is_column_break = false\n" ++
    "          width           = " ++ toString (jsOrInt l.width 12) ++ "\n" ++
    "          x               = " ++ toString (jsOrInt l.x 0) ++ "\n" ++
    "          y               = " ++ toString (jsOrInt l.y 0) ++ "\n" ++
    "        \x7d\n\n"

/-- One common-property line of `generateConfiguredWidget`
(script.js:413-419): emitted when the dynamic lookup is defined and the
property is not `live_span` (already emitted). -/
def commonPropPart (core : DefCore) (prop : String) : String :=
  match lookupProp core.props prop with
  | some v =>
    if prop ≠ "live_span" then
      "      " ++ prop ++ " = " ++ formatPropertyValue v ++ "\n"
    else ""
  | none => ""

/-- One specific-property line of `generateConfiguredWidget`
(script.js:422-437), with the `timeseries_background` object special
case rendered as a nested block. -/
def specificPropPart (core : DefCore) (jsonProp hclProp : String) : String :=
  match lookupProp core.props jsonProp with
  | some v =>
    if jsonProp = "timeseries_background" ∧ v.isObjLike then
      "      " ++ hclProp ++ " \x7b\n" ++
        (match v with
         | .obj fs =>
           (match lookupProp fs "type" with
            | some tv =>
              if tv.truthy then "        type = \"" ++ hvToJSString tv ++ "\"\n" else ""
            | none => "")
         | _ => "") ++
        "      \x7d\n"
    else
      "      " ++ hclProp ++ " = " ++ formatPropertyValue v ++ "\n"
  | none => ""

/-- Re-indentation of an already-emitted nested widget body: the source
regex `.replace(/^    /gm, '        ')` (script.js:700) prepends four
spaces to every line that starts with four spaces. -/
def reindentNested (s : String) : String :=
  jsJoin ("\n") ((jsSplitOn s ("\n")).map (fun l =>
    if strStartsWith l ("    ") then "    " ++ l else l))

/-- Commentary the nested-widget emitter produces for an unmapped kind
(script.js:702-707). -/
def nestedUnknownCommentary (nestedType : String) (core : DefCore) : String :=
  "        # " ++ nestedType ++ " widget - configuration not yet supported\n" ++
    "        # Please add configuration for " ++ nestedType ++ " to widget mappings\n" ++
    (match lookupProp core.props ("title") with
     | some tv => if tv.truthy then "        # Title: " ++ hvToJSString tv ++ "\n" else ""
     | none => "")

mutual

/-- Embeds `generateConfiguredWidget` (script.js:406-486).  The
definition's fields and its nested `widgets` list are passed as two
arguments so the recursion through nested widgets is structural. -/
def generateConfiguredWidget (m : List (String × WidgetConfig)) (cfg : WidgetConfig)
    (core : DefCore) (wopt : Option (List Widget)) : String :=
  "    " ++ cfg.blockName ++ " \x7b\n" ++
    (if optStrTruthy core.live_span then
      "      live_span   = \"" ++ core.live_span.getD ("") ++ "\"\n" else "") ++
    String.join (cfg.commonProperties.map (commonPropPart core)) ++
    String.join (cfg.specificProperties.map (fun p => specificPropPart core p.1 p.2)) ++
    (if cfg.requestStructure = "modern" then
      match core.requests with
      | some rs => generateModernRequests rs
      | none => ""
     else if cfg.requestStructure = "legacy" then
      match core.requests with
      | some rs => generateLegacyRequests rs
      | none => ""
     else "") ++
    (if cfg.features.supportsYAxis then
      match core.yaxis with
      | some y => generateYAxisConfiguration y
      | none => ""
     else "") ++
    (if cfg.features.supportsEvents then
      match core.events with
      | some es => generateEventsConfiguration es
      | none => ""
     else "") ++
    (if cfg.features.supportsStyle then
      match core.style with
      | some st => generateStyleConfiguration st
      | none => ""
     else "") ++
    (if cfg.features.supportsView then
      match core.view with
      | some v => generateViewConfiguration v
      | none => ""
     else "") ++
    (if cfg.features.supportsSort then
      match core.sort with
      | some s => generateSortConfiguration s
      | none => ""
     else "") ++
    (if cfg.features.hasNestedWidgets then
      match wopt with
      | some ws => genNestedWidgetList m ws
      | none => ""
     else "") ++
    "    \x7d\n"
termination_by sizeOf wopt

/-- The `definition.widgets.forEach` loop of `generateConfiguredWidget`
(script.js:478-481). -/
def genNestedWidgetList (m : List (String × WidgetConfig)) : List Widget → String
  | [] => ""
  | w :: rest => generateNestedWidget m w ++ genNestedWidgetList m rest
termination_by ws => sizeOf ws

/-- Embeds `generateNestedWidget` (script.js:682-712): identifier,
layout block, then the configured body re-indented four spaces deeper,
or unmapped-kind commentary. -/
def generateNestedWidget (m : List (String × WidgetConfig)) (w : Widget) : String :=
  match w with
  | .mk id lay dopt =>
    "\n      widget \x7b\n" ++
      (if optStrTruthy id then
        "        id = \"" ++ id.getD ("") ++ "\"\n" else "") ++
      (match lay with
       | some l => nestedWidgetLayoutBlock l
       | none => "") ++
      (match dopt with
       | some (.mk core wopt) =>
         (match m.lookup (jsOrStr core.type ("unknown")) with
          | some cfg => reindentNested (generateConfiguredWidget m cfg core wopt)
          | none => nestedUnknownCommentary (jsOrStr core.type ("unknown")) core)
       | none =>
         (match m.lookup ("unknown") with
          | some cfg => reindentNested (generateConfiguredWidget m cfg emptyDefCore none)
          | none => nestedUnknownCommentary ("unknown") emptyDefCore)) ++
      "      \x7d\n"
termination_by sizeOf w

end

/-- Helper for optional string fields of a reconstructed JSON object. -/
def strField (k : String) (o : Option String) : List (String × HValue) :=
  match o with
  | some s => [(k, .str s)]
  | none => []

/-- Helper for optional integer fields of a reconstructed JSON object. -/
def intField (k : String) (o : Option Int) : List (String × HValue) :=
  match o with
  | some n => [(k, .num n)]
  | none => []

/-- Helper for optional boolean fields of a reconstructed JSON object. -/
def boolField (k : String) (o : Option Bool) : List (String × HValue) :=
  match o with
  | some b => [(k, .bool b)]
  | none => []

/-- Helper for optional pre-built fields of a reconstructed JSON
object. -/
def hvField (k : String) (o : Option HValue) : List (String × HValue) :=
  match o with
  | some v => [(k, v)]
  | none => []

/-- Raw-JSON reconstruction of a query, for the unknown-widget dump. -/
def queryToJson (q : Query) : HValue :=
  .obj (strField ("data_source") q.data_source ++ strField ("name") q.name ++
    strField ("query") q.query ++ strField ("aggregator") q.aggregator ++
    hvField ("metric") q.metric ++
    (match q.search with
     | some se => [(("search" : String), .obj (strField ("query") se.query))]
     | none => []) ++
    (match q.compute with
     | some co => [(("compute" : String),
         .obj (strField ("aggregation") co.aggregation ++ strField ("metric") co.metric))]
     | none => []))

/-- Raw-JSON reconstruction of a formula. -/
def formulaToJson (f : Formula) : HValue :=
  .obj (strField ("alias") f.aliasName ++ strField ("formula") f.formula ++
    strField ("formula_expression") f.formula_expression ++
    (match f.limit with
     | some lim => [(("limit" : String),
         .obj (intField ("count") lim.count ++ strField ("order") lim.order))]
     | none => []))

/-- Raw-JSON reconstruction of a conditional format. -/
def cformatToJson (f : CFormat) : HValue :=
  .obj (strField ("comparator") f.comparator ++ boolField ("hide_value") f.hide_value ++
    strField ("palette") f.palette ++ intField ("value") f.value)

/-- Raw-JSON reconstruction of a request style. -/
def rstyleToJson (st : RStyle) : HValue :=
  .obj (strField ("palette") st.palette ++ strField ("line_type") st.line_type ++
    strField ("line_width") st.line_width)

/-- Raw-JSON reconstruction of a request. -/
def requestToJson (r : Request) : HValue :=
  .obj (strField ("q") r.q ++ strField ("aggregator") r.aggregator ++
    strField ("display_type") r.display_type ++ boolField ("on_right_yaxis") r.on_right_yaxis ++
    (match r.conditional_formats with
     | some fs => [(("conditional_formats" : String), .arr (fs.map cformatToJson))]
     | none => []) ++
    (match r.formulas with
     | some fs => [(("formulas" : String), .arr (fs.map formulaToJson))]
     | none => []) ++
    (match r.queries with
     | some qs => [(("queries" : String), .arr (qs.map queryToJson))]
     | none => []) ++
    (match r.style with
     | some st => [(("style" : String), rstyleToJson st)]
     | none => []))

/-- Raw-JSON reconstruction of a layout rectangle. -/
def layoutToJson (l : WLayout) : HValue :=
  .obj (intField ("x") l.x ++ intField ("y") l.y ++
    intField ("width") l.width ++ intField ("height") l.height)

/-- Raw-JSON reconstruction of a yaxis object. -/
def yaxisToJson (y : Yaxis) : HValue :=
  .obj (strField ("label") y.label ++ strField ("scale") y.scale ++
    hvField ("min") y.min ++ hvField ("max") y.max ++
    boolField ("include_zero") y.include_zero)

/-- Raw-JSON reconstruction of an event. -/
def eventToJson (e : DEvent) : HValue :=
  .obj (strField ("q") e.q ++ strField ("tags_execution") e.tags_execution)

/-- Raw-JSON reconstruction of a definition-level style. -/
def dstyleToJson (st : DStyle) : HValue :=
  .obj (strField ("palette") st.palette ++ boolField ("palette_flip") st.palette_flip)

mutual

/-- Raw-JSON reconstruction of a widget definition, used for the
pretty dump in the unknown-widget commentary.  The embedding stores
the definition structurally, so the original key order of the input
text is not recoverable; a fixed field order is used. -/
def wdefToJson (core : DefCore) (wopt : Option (List Widget)) : HValue :=
  .obj (strField ("type") core.type ++ strField ("live_span") core.live_span ++
    core.props ++
    (match core.requests with
     | some rs => [(("requests" : String), .arr (rs.map requestToJson))]
     | none => []) ++
    (match core.yaxis with
     | some y => [(("yaxis" : String), yaxisToJson y)]
     | none => []) ++
    (match core.events with
     | some es => [(("events" : String), .arr (es.map eventToJson))]
     | none => []) ++
    (match core.style with
     | some st => [(("style" : String), dstyleToJson st)]
     | none => []) ++
    (match core.view with
     | some v => [(("view" : String), .obj (strField ("focus") v.focus))]
     | none => []) ++
    (match core.sort with
     | some s => [(("sort" : String), .obj (strField ("column") s.column ++ strField ("order") s.order))]
     | none => []) ++
    (match wopt with
     | some ws => [(("widgets" : String), .arr (widgetsToJson ws))]
     | none => []))
termination_by sizeOf wopt

/-- Raw-JSON reconstruction of a widget list. -/
def widgetsToJson : List Widget → List HValue
  | [] => []
  | w :: rest => widgetToJson w :: widgetsToJson rest
termination_by ws => sizeOf ws

/-- Raw-JSON reconstruction of a widget. -/
def widgetToJson : Widget → HValue
  | .mk id lay dopt =>
    .obj (strField ("id") id ++
      (match lay with
       | some l => [(("layout" : String), layoutToJson l)]
       | none => []) ++
      (match dopt with
       | some (.mk core wopt) => [(("definition" : String), wdefToJson core wopt)]
       | none => []))
termination_by w => sizeOf w

end

/-- Commentary `generateModernWidgetHCL` emits for a widget kind absent
from the registry (script.js:390-400), including the pretty dump of the
raw definition. -/
def unknownWidgetCommentary (widgetType : String) (core : DefCore)
    (wopt : Option (List Widget)) : String :=
  "    # " ++ widgetType ++ " widget - configuration not yet supported\n" ++
    "    # Please add configuration for " ++ widgetType ++ " to widget mappings\n" ++
    (match lookupProp core.props ("title") with
     | some tv => if tv.truthy then "    # Title: " ++ hvToJSString tv ++ "\n" else ""
     | none => "") ++
    (match core.requests with
     | some rs =>
       if rs.length > 0 then
         "    # Has " ++ toString rs.length ++ " request(s)\n"
       else ""
     | none => "") ++
    "    # Widget definition: " ++
      jsJoin ("\n    # ") (jsSplitOn (prettyJson 0 (wdefToJson core wopt)) ("\n")) ++ "\n"

/-- Embeds `generateModernWidgetHCL` (script.js:365-404), including the
type/definition extraction its caller `generateWidgetHCL`
(script.js:357-363) performs (`widget.definition?.type || 'unknown'`,
`widget.definition || {}`). -/
def generateModernWidgetHCL (m : List (String × WidgetConfig)) (w : Widget) : String :=
  match w with
  | .mk id lay dopt =>
    "\n  widget \x7b\n" ++
      (if optStrTruthy id then
        "    id = \"" ++ id.getD ("") ++ "\"\n" else "") ++
      (match lay with
       | some l => widgetLayoutBlock l
       | none => "") ++
      (match dopt with
       | some (.mk core wopt) =>
         (match m.lookup (jsOrStr core.type ("unknown")) with
          | some cfg => generateConfiguredWidget m cfg core wopt
          | none => unknownWidgetCommentary (jsOrStr core.type ("unknown")) core wopt)
       | none =>
         (match m.lookup ("unknown") with
          | some cfg => generateConfiguredWidget m cfg emptyDefCore none
          | none => unknownWidgetCommentary ("unknown") emptyDefCore none)) ++
      "  \x7d\n"

/-- Embeds `generateWidgetHCL` (script.js:357-363), which simply
delegates to the modern-syntax widget emitter. -/
def generateWidgetHCL (m : List (String × WidgetConfig)) (w : Widget) : String :=
  generateModernWidgetHCL m w

/-- One dashboard template variable (specification §3).  `pfx` models
the source's `prefix` field. -/
structure TemplateVariable where
  name : Option String
  pfx : Option String
  defaultValue : Option HValue
  defaults : Option HValue
  available_values : Option (List HValue)

/-- The dashboard document, in the structured shape the generator reads
(specification §3).  A present-but-empty string field models the
"source key existed but the value was empty" case. -/
structure Dashboard where
  id : Option String
  title : Option String
  description : Option String
  layout_type : Option String
  reflow_type : Option String
  notify_list : Option (List String)
  is_read_only : Option Bool
  url : Option String
  tags : Option (List String)
  template_variables : Option (List TemplateVariable)
  widgets : Option (List Widget)

/-- One `template_variable` block of `generateHCL`
(script.js:308-336): available values (defaulting to the empty
sequence), defaults (a singular `default` wrapped into a one-element
sequence, else the explicit `defaults`, else empty), name, optional
prefix. -/
def templateVariableBlock (v : TemplateVariable) : String :=
  "  template_variable \x7b\n" ++
    (match v.available_values with
     | some xs => "    available_values = " ++ jsonStringify (.arr xs) ++ "\n"
     | none => "    available_values = []\n") ++
    (match v.defaultValue with
     | some (.arr xs) => "    defaults         = " ++ jsonStringify (.arr xs) ++ "\n"
     | some dv => "    defaults         = " ++ jsonStringify (.arr [dv]) ++ "\n"
     | none =>
       match v.defaults with
       | some ds => "    defaults         = " ++ jsonStringify ds ++ "\n"
       | none => "    defaults         = []\n") ++
    "    name             = \"" ++ (match v.name with
      | some s => s
      | none => "undefined") ++ "\"\n" ++
    (if optStrTruthy v.pfx then
      "    prefix           = \"" ++ v.pfx.getD ("") ++ "\"\n" else "") ++
    "  \x7d\n"

/-- Embeds `generateHCL` (script.js:259-355): the full dashboard
resource block. -/
def generateHCL (m : List (String × WidgetConfig)) (d : Dashboard) : String :=
  let title := escapeHCLStr (jsOrStr d.title ("Imported Dashboard"))
  let layoutType := jsOrStr d.layout_type ("ordered")
  let resourceName := generateResourceName (jsOrStr d.title ("imported_dashboard"))
  "resource \"datadog_dashboard\" \"" ++ resourceName ++ "\" \x7b\n" ++
    "  title       = " ++ title ++ "\n" ++
    (match d.description with
     | some s =>
       if s ≠ "" then "  description = " ++ escapeHCLStr s ++ "\n"
       else "  description = \"\"\n"
     | none => "") ++
    (if optStrTruthy d.reflow_type then
      "  reflow_type = \"" ++ d.reflow_type.getD ("") ++ "\"\n" else "") ++
    "  layout_type = \"" ++ layoutType ++ "\"\n" ++
    (match d.notify_list with
     | some l =>
       if l.length > 0 then
         "  notify_list = " ++ jsonStringify (.arr (l.map .str)) ++ "\n"
       else "  notify_list = []\n"
     | none => "") ++
    (match d.is_read_only with
     | some b => "  is_read_only = " ++ boolStr b ++ "\n"
     | none => "") ++
    (if optStrTruthy d.url then
      "  url = \"" ++ d.url.getD ("") ++ "\"\n" else "") ++
    (match d.tags with
     | some l =>
       if l.length > 0 then "  tags = " ++ jsonStringify (.arr (l.map .str)) ++ "\n"
       else ""
     | none => "") ++
    (match d.template_variables with
     | some vs =>
       if vs.length > 0 then "\n" ++ String.join (vs.map templateVariableBlock)
       else ""
     | none => "") ++
    (match d.widgets with
     | some ws =>
       if ws.length > 0 then
         "\n  # long queue\n\n" ++ String.join (ws.map (generateWidgetHCL m))
       else "\n  # No widgets found - add your widget configurations here\n"
     | none => "\n  # No widgets found - add your widget configurations here\n") ++
    "\x7d\n"

/-- One validation finding (specification §3 "Validation finding"). -/
structure Issue where
  severity : String
  title : String
  description : String
  line : Option Nat
  location : String
deriving DecidableEq, Repr

/-- Summary counters of a validation run. -/
structure ValidationSummary where
  errors : Nat
  warnings : Nat
  infos : Nat
  total : Nat
deriving DecidableEq, Repr

/-- The structured result of `performHCLValidation`. -/
structure ValidationResult where
  isValid : Bool
  issues : List Issue
  summary : ValidationSummary
deriving DecidableEq, Repr

/-- The subset of `validationRules` the validator passes read
(script.js:1806-1824). -/
structure ValidationRules where
  required_dashboard_fields : List String
  valid_layout_types : List String
  valid_widget_types : List String

/-- The rules installed by `initializeValidation` (script.js:1806). -/
def defaultValidationRules : ValidationRules :=
  ⟨["title", "layout_type"], ["ordered", "free"],
   ["group", "timeseries", "query_value", "note", "toplist",
    "scatterplot", "heatmap", "distribution", "check_status",
    "hostmap", "service_map", "log_stream", "trace_service",
    "iframe", "image", "free_text", "alert_graph", "alert_value",
    "change", "event_stream", "event_timeline", "slo",
    "monitor_summary", "manage_status", "geomap"]⟩

/-- Regex class `[a-zA-Z_]`. -/
def isIdentStartChar (c : Char) : Bool :=
  (('a') ≤ c ∧ c ≤ ('z')) ∨ (('A') ≤ c ∧ c ≤ ('Z')) ∨ c = ('_')

/-- Regex class `[0-9]` (`\d`). -/
def isDigitChar (c : Char) : Bool := ('0') ≤ c ∧ c ≤ ('9')

/-- Regex class `[a-zA-Z0-9_]` (`\w`). -/
def isIdentChar (c : Char) : Bool := isIdentStartChar c ∨ isDigitChar c

/-- Regex class `[a-z]`. -/
def isLowerChar (c : Char) : Bool := ('a') ≤ c ∧ c ≤ ('z')

/-- Regex class `[a-zA-Z]`. -/
def isAsciiLetter (c : Char) : Bool :=
  (('a') ≤ c ∧ c ≤ ('z')) ∨ (('A') ≤ c ∧ c ≤ ('Z'))

/-- Regex class `[0-9a-fA-F]`. -/
def isHexChar (c : Char) : Bool :=
  isDigitChar c ∨ (('a') ≤ c ∧ c ≤ ('f')) ∨ (('A') ≤ c ∧ c ≤ ('F'))

/-- The pattern `validIdentifier` `^[a-zA-Z_][a-zA-Z0-9_]*$`
(script.js:1788). -/
def validIdentifier (s : String) : Bool :=
  match s.toList with
  | [] => false
  | c :: rest => isIdentStartChar c && rest.all isIdentChar

/-- The pattern `validResourceName` `^[a-zA-Z][a-zA-Z0-9_-]*$`
(script.js:1787). -/
def validResourceName (s : String) : Bool :=
  match s.toList with
  | [] => false
  | c :: rest => isAsciiLetter c && rest.all (fun d => isIdentChar d || d = ('-'))

/-- The pattern `validResourceType` `^[a-z]+_[a-z_]+$`
(script.js:1794). -/
def validResourceType (s : String) : Bool :=
  let l := s.toList
  let r1 := l.takeWhile isLowerChar
  decide (r1 ≠ []) &&
    (match l.drop r1.length with
     | ('_') :: tail => decide (tail ≠ []) && tail.all (fun c => isLowerChar c || c = ('_'))
     | _ => false)

/-- The pattern `validColor` `^#[0-9a-fA-F]{6}$|^[a-zA-Z_]+$`
(script.js:1802). -/
def validColor (s : String) : Bool :=
  (match s.toList with
   | ('#') :: rest => decide (rest.length = 6) && rest.all isHexChar
   | _ => false) ||
  (decide (s.toList ≠ []) && s.toList.all (fun c => isAsciiLetter c || c = ('_')))

/-- A line the syntax pass processes: not blank and not a comment
(script.js:2262-2265). -/
def isCountedLine (line : String) : Bool :=
  let t := jsTrim line
  !(t = "" || strStartsWith t ("#") || strStartsWith t ("//"))

/-- Unescaped-quote counter of the syntax pass (script.js:2268-2273):
a quote counts unless the previous character is a backslash. -/
def quoteCountAux : Option Char → List Char → Nat
  | _, [] => 0
  | prev, c :: rest =>
    (if c = ('"') ∧ prev ≠ some ('\\') then 1 else 0) + quoteCountAux (some c) rest

/-- Number of unescaped quotes on a line. -/
def unescapedQuoteCount (line : String) : Nat := quoteCountAux none line.toList

/-- Net opening-minus-closing count of a delimiter pair on one line
(script.js:2285-2294). -/
def lineDelta (openC closeC : Char) (line : String) : Int :=
  line.toList.foldl
    (fun acc c => if c = openC then acc + 1 else if c = closeC then acc - 1 else acc) 0

/-- Cumulative delimiter count over the whole text; blank and comment
lines are skipped by the syntax pass before counting. -/
def netCount (openC closeC : Char) (lines : List String) : Int :=
  ((lines.filter isCountedLine).map (lineDelta openC closeC)).sum

/-- The brace counter of the syntax pass. -/
def netBraceCount (lines : List String) : Int := netCount ('\x7b') ('\x7d') lines

/-- The bracket counter of the syntax pass. -/
def netBracketCount (lines : List String) : Int := netCount ('[') (']') lines

/-- The parenthesis counter of the syntax pass. -/
def netParenCount (lines : List String) : Int := netCount ('(') (')') lines

/-- The left-hand-side identifier match `^\s*([a-zA-Z_][a-zA-Z0-9_]*)\s*=`
(script.js:2297). -/
def matchLhsIdentifier (line : String) : Option String :=
  match line.toList.dropWhile isWsChar with
  | c :: rest =>
    if isIdentStartChar c then
      let idTail := rest.takeWhile isIdentChar
      match (rest.drop idTail.length).dropWhile isWsChar with
      | ('=') :: _ => some (String.mk (c :: idTail))
      | _ => none
    else none
  | [] => none

/-- Matches `=\s*` at the head, then hands the rest to `k` — the common
prefix of the `skipPatterns` regexes (script.js:2320-2337). -/
def afterEq (k : List Char → Bool) : List Char → Bool
  | ('=') :: r => k (r.dropWhile isWsChar)
  | _ => false

/-- Head-character test. -/
def headIs (c : Char) : List Char → Bool
  | x :: _ => x = c
  | [] => false

/-- Matches a literal then optional whitespace then end of line —
the `=\s*lit\s*$` skip patterns. -/
def litThenWsEnd (lit : List Char) (r : List Char) : Bool :=
  lit.isPrefixOf r && (r.drop lit.length).all isWsChar

/-- Matches `-?\d+(\.\d+)?\s*$`. -/
def numberThenWsEnd (r : List Char) : Bool :=
  let r1 := match r with
    | ('-') :: t => t
    | t => t
  let ip := r1.takeWhile isDigitChar
  !ip.isEmpty &&
    (let r2 := r1.drop ip.length
     let r3 := match r2 with
       | ('.') :: t =>
         if (t.takeWhile isDigitChar).isEmpty then r2
         else t.drop (t.takeWhile isDigitChar).length
       | _ => r2
     r3.all isWsChar)

/-- Matches `"[^"]*"\s*$`. -/
def quotedThenWsEnd (r : List Char) : Bool :=
  match r with
  | ('"') :: t =>
    let body := t.takeWhile (fun c => c ≠ ('"'))
    match t.drop body.length with
    | ('"') :: rest => rest.all isWsChar
    | _ => false
  | _ => false

/-- The `skipPatterns` disjunction of the unquoted-value heuristic
(script.js:2318-2340). -/
def skipUnquotedCheck (line : String) : Bool :=
  let l := line.toList
  anySuffix (afterEq (headIs ('['))) l ||
  anySuffix (afterEq (headIs ('\x7b'))) l ||
  anySuffix (afterEq (fun r => [('$'), ('\x7b')].isPrefixOf r)) l ||
  anySuffix (afterEq (fun r => ("var.").toList.isPrefixOf r)) l ||
  anySuffix (afterEq (fun r => ("local.").toList.isPrefixOf r)) l ||
  anySuffix (afterEq (fun r => ("data.").toList.isPrefixOf r)) l ||
  anySuffix (afterEq (fun r => ("resource.").toList.isPrefixOf r)) l ||
  anySuffix (afterEq (fun r => ("module.").toList.isPrefixOf r)) l ||
  anySuffix (afterEq (litThenWsEnd (("true").toList))) l ||
  anySuffix (afterEq (litThenWsEnd (("false").toList))) l ||
  anySuffix (afterEq (litThenWsEnd (("null").toList))) l ||
  anySuffix (afterEq numberThenWsEnd) l ||
  anySuffix (afterEq quotedThenWsEnd) l ||
  headIs ('#') (l.dropWhile isWsChar) ||
  ("//").toList.isPrefixOf (l.dropWhile isWsChar)

/-- First character class of the value capture
`[^"'\s\[\{\$]` (script.js:2344). -/
def isXClass (c : Char) : Bool :=
  !(c = ('"') || c = ('\'') || isWsChar c || c = ('[') || c = ('\x7b') || c = ('$'))

/-- Middle character class of the value capture `[^,\]\}]`. -/
def isYClass (c : Char) : Bool :=
  !(c = (',') || c = (']') || c = ('\x7d'))

/-- The capture of `=\s*([^"'\s\[\{\$][^,\]\}]*[^,\]\}\s])` when the
match is anchored right after an `=`: skip whitespace, take one
first-class character, then the maximal middle-class run backtracked to
its last non-whitespace character (the final class is the middle class
minus whitespace, so greedy matching ends there). -/
def assignValueAfterEq (r : List Char) : Option String :=
  match r.dropWhile isWsChar with
  | x :: r2 =>
    if isXClass x then
      let core := dropTrailingWs (r2.takeWhile isYClass)
      if core.isEmpty then none else some (String.mk (x :: core))
    else none
  | [] => none

/-- Leftmost match of the value capture: the regex starts with a
literal `=`, so candidate positions are the `=` occurrences in order. -/
def findAssignValue : List Char → Option String
  | [] => none
  | ('=') :: rest =>
    (match assignValueAfterEq rest with
     | some v => some v
     | none => findAssignValue rest)
  | _ :: rest => findAssignValue rest

/-- Pattern `^-?\d+(\.\d+)?$`. -/
def isNumberLit (s : String) : Bool :=
  let l := match s.toList with
    | ('-') :: t => t
    | t => t
  let ip := l.takeWhile isDigitChar
  !ip.isEmpty &&
    (match l.drop ip.length with
     | [] => true
     | ('.') :: t => !t.isEmpty && t.all isDigitChar
     | _ => false)

/-- Pattern `^\[.*\]$` (a line never contains a newline, so `.` is
unrestricted). -/
def isBracketedLit (s : String) : Bool :=
  let l := s.toList
  decide (l.length ≥ 2) && headIs ('[') l && decide (l.getLast? = some (']'))

/-- Pattern `^\{.*\}$`. -/
def isBracedLit (s : String) : Bool :=
  let l := s.toList
  decide (l.length ≥ 2) && headIs ('\x7b') l && decide (l.getLast? = some ('\x7d'))

/-- Pattern `^\$\{.*\}$`. -/
def isInterpLit (s : String) : Bool :=
  let l := s.toList
  decide (l.length ≥ 3) && [('$'), ('\x7b')].isPrefixOf l && decide (l.getLast? = some ('\x7d'))

/-- Pattern `^[a-zA-Z_][a-zA-Z0-9_]*\.[a-zA-Z_][a-zA-Z0-9_]*$`.
Identifiers contain no dot, so splitting on dots is faithful. -/
def isDottedIdentLit (s : String) : Bool :=
  match jsSplitOn s (".") with
  | [a, b] => validIdentifier a && validIdentifier b
  | _ => false

/-- Pattern `^var\.[a-zA-Z_][a-zA-Z0-9_]*$` (and its `local.` twin). -/
def isPrefixedRef (head : String) (s : String) : Bool :=
  match jsSplitOn s (".") with
  | [a, b] => a == head && validIdentifier b
  | _ => false

/-- Pattern `^data\.i\.i$` (and its `module.` twin). -/
def isPrefixedRef2 (head : String) (s : String) : Bool :=
  match jsSplitOn s (".") with
  | [a, b, c] => a == head && validIdentifier b && validIdentifier c
  | _ => false

/-- The `validUnquotedPatterns` disjunction (script.js:2347-2361). -/
def validUnquotedValue (s : String) : Bool :=
  isNumberLit s || s == "true" || s == "false" || s == "null" ||
  validIdentifier s || isBracketedLit s || isBracedLit s || isInterpLit s ||
  isDottedIdentLit s || isPrefixedRef ("var") s || isPrefixedRef ("local") s ||
  isPrefixedRef2 ("data") s || isPrefixedRef2 ("module") s

/-- Per-line findings of the syntax pass (script.js:2267-2373):
unclosed string literal, invalid assignment identifier (unsatisfiable
by construction of the extraction regex, kept verbatim), and the
potentially-unquoted-string warning. -/
def lineSyntaxIssues (idx : Nat) (line : String) : List Issue :=
  (if unescapedQuoteCount line % 2 ≠ 0 then
    [⟨"error", "Unclosed string literal",
      "String literal is not properly closed with matching quotes.",
      some (idx + 1), "Line " ++ toString (idx + 1)⟩]
   else []) ++
  (match matchLhsIdentifier line with
   | some ident =>
     if !validIdentifier ident then
       [⟨"error", "Invalid identifier",
         "Identifier \"" ++ ident ++ "\" contains invalid characters. Identifiers must start with a letter or underscore and contain only letters, numbers, and underscores.",
         some (idx + 1), "Line " ++ toString (idx + 1)⟩]
     else []
   | none => []) ++
  (if containsSub line ("=") && !containsSub line ("==") && !containsSub line ("!=") &&
      !containsSub line ("<=") && !containsSub line (">=") && !skipUnquotedCheck line then
    match findAssignValue line.toList with
    | some v0 =>
      let v := jsTrim v0
      if !validUnquotedValue v && decide (v ≠ "") then
        [⟨"warning", "Potentially unquoted string",
          "Value \"" ++ v ++ "\" might need to be quoted if it's a string literal. If this is intentional (e.g., a reference or expression), you can ignore this warning.",
          some (idx + 1), "Line " ++ toString (idx + 1)⟩]
      else []
    | none => []
   else [])

/-- The end-of-pass unmatched-delimiter finding (script.js:2376-2403). -/
def unmatchedIssue (count : Int) (what : String) : List Issue :=
  if count ≠ 0 then
    [⟨"error", "Unmatched " ++ what,
      "Found " ++ toString count.natAbs ++ " unmatched " ++
        (if count > 0 then "opening" else "closing") ++ " " ++ what ++ ".",
      none, "Overall structure"⟩]
  else []

/-- Embeds `validateBasicSyntax` (script.js:2251-2404): per-line checks
on non-blank, non-comment lines, then the three cumulative delimiter
checks.  The source accumulates the counters in the same loop that
emits the per-line findings; since the counters are only read after the
loop, they are computed by separate folds here. -/
def validateBasicSyn (lines : List String) : List Issue :=
  (lines.enum.flatMap (fun p =>
    if isCountedLine p.2 then lineSyntaxIssues p.1 p.2 else [])) ++
  unmatchedIssue (netBraceCount lines) ("braces") ++
  unmatchedIssue (netBracketCount lines) ("brackets") ++
  unmatchedIssue (netParenCount lines) ("parentheses")

/-- Anchored match of `resource\s+"([^"]+)"\s+"([^"]+)"` at the head of
the list: returns the two captures and the match length. -/
def matchResourceAt (l : List Char) : Option (String × String × Nat) :=
  if ("resource").toList.isPrefixOf l then
    let r0 := l.drop 8
    let w1 := r0.takeWhile isWsChar
    if w1.isEmpty then none else
    match r0.drop w1.length with
    | ('"') :: r1 =>
      let q1 := r1.takeWhile (fun c => c ≠ ('"'))
      if q1.isEmpty then none else
      match r1.drop q1.length with
      | ('"') :: r2 =>
        let w2 := r2.takeWhile isWsChar
        if w2.isEmpty then none else
        match r2.drop w2.length with
        | ('"') :: r3 =>
          let q2 := r3.takeWhile (fun c => c ≠ ('"'))
          if q2.isEmpty then none else
          match r3.drop q2.length with
          | ('"') :: _ =>
            some (String.mk q1, String.mk q2,
              8 + w1.length + 1 + q1.length + 1 + w2.length + 1 + q2.length + 1)
          | _ => none
        | _ => none
      | _ => none
    | _ => none
  else none

/-- All global matches of the resource-declaration regex
(script.js:2419, 2451), leftmost first, continuing after each match. -/
def allResourceMatches (l : List Char) : List (String × String) :=
  match l with
  | [] => []
  | c :: rest =>
    match matchResourceAt (c :: rest) with
    | some (t, n, k) => (t, n) :: allResourceMatches ((c :: rest).drop (max k 1))
    | none => allResourceMatches rest
termination_by l.length
decreasing_by
  all_goals simp [List.length_drop]

/-- Duplicate-name detection of the structural pass
(script.js:2448-2466): a finding for every repeated occurrence. -/
def dupNameIssues (seen : List String) : List String → List Issue
  | [] => []
  | n :: rest =>
    if seen.contains n then
      ⟨"error", "Duplicate resource name",
        "Resource name \"" ++ n ++ "\" is used multiple times. Each resource must have a unique name.",
        none, "Resource name: " ++ n⟩ :: dupNameIssues seen rest
    else dupNameIssues (seen ++ [n]) rest

/-- Embeds `validateTerraformStructure` (script.js:2406-2467): the
required resource declaration (an early return when missing), the
type/name shape checks, then duplicate instance names. -/
def validateTerraformStructure (content : String) : List Issue :=
  if !containsSub content ("resource \"datadog_dashboard\"") then
    [⟨"error", "Missing dashboard resource",
      "HCL must contain a datadog_dashboard resource block.",
      none, "Overall structure"⟩]
  else
    let ms := allResourceMatches content.toList
    (ms.flatMap (fun p =>
      (if !validResourceType p.1 then
        [⟨"error", "Invalid resource type",
          "Resource type \"" ++ p.1 ++ "\" is not valid. Must be in format \"provider_resource\".",
          none, "Resource: " ++ p.1 ++ "." ++ p.2⟩]
       else []) ++
      (if !validResourceName p.2 then
        [⟨"error", "Invalid resource name",
          "Resource name \"" ++ p.2 ++ "\" is not valid. Must start with a letter and contain only letters, numbers, hyphens, and underscores.",
          none, "Resource: " ++ p.1 ++ "." ++ p.2⟩]
       else []))) ++
    dupNameIssues [] (ms.map (fun p => p.2))

/-- Case-insensitive test of ``new RegExp(`${field}\s*=`, 'i')``
(script.js:2472). -/
def fieldAssignedCI (content : String) (field : String) : Bool :=
  anySuffix (fun l =>
    ((strToLower field).toList).isPrefixOf l &&
      headIs ('=') ((l.drop (strToLower field).toList.length).dropWhile isWsChar))
    (strToLower content).toList

/-- Anchored match of `layout_type\s*=\s*"([^"]+)"`. -/
def matchLayoutTypeAt (l : List Char) : Option String :=
  if ("layout_type").toList.isPrefixOf l then
    match (l.drop 11).dropWhile isWsChar with
    | ('=') :: r1 =>
      match r1.dropWhile isWsChar with
      | ('"') :: r2 =>
        let q := r2.takeWhile (fun c => c ≠ ('"'))
        if q.isEmpty then none else
        match r2.drop q.length with
        | ('"') :: _ => some (String.mk q)
        | _ => none
      | _ => none
    | _ => none
  else none

/-- First (leftmost) match of an anchored matcher over the text. -/
def firstMatchOpt {α : Type} (f : List Char → Option α) : List Char → Option α
  | [] => f []
  | c :: rest =>
    match f (c :: rest) with
    | some v => some v
    | none => firstMatchOpt f rest

/-- Tail condition of the widget-definition regex
`(\w+)_definition\s*\{` after the `\w+` has consumed `j` characters. -/
def wdefTailOk (l : List Char) (j : Nat) : Bool :=
  ("_definition").toList.isPrefixOf (l.drop j) &&
    headIs ('\x7b') ((l.drop (j + 11)).dropWhile isWsChar)

/-- Anchored match of `(\w+)_definition\s*\{`: greedy `\w+` backtracks
from the end of the word run, so the largest viable split is taken.
Returns the whole-match length. -/
def wdefMatchAt (l : List Char) : Option Nat :=
  let run := l.takeWhile isIdentChar
  match (List.range (run.length + 1)).reverse.find?
      (fun j => decide (1 ≤ j) && wdefTailOk l j) with
  | some j =>
    let rest := l.drop (j + 11)
    some (j + 11 + (rest.takeWhile isWsChar).length + 1)
  | none => none

/-- The capture re-extraction `definition.match(/(\w+)_definition/)[1]`
(script.js:2504) applied to a whole match: leftmost start, greedy
`\w+`. -/
def wdefTypeOf (m : List Char) : String :=
  let run := m.takeWhile isIdentChar
  match (List.range (run.length + 1)).reverse.find?
      (fun j => decide (1 ≤ j) && ("_definition").toList.isPrefixOf (m.drop j)) with
  | some j => String.mk (m.take j)
  | none => ""

/-- All global matches of the widget-definition regex, as the captured
widget types. -/
def allWdefMatches (l : List Char) : List String :=
  match l with
  | [] => []
  | c :: rest =>
    match wdefMatchAt (c :: rest) with
    | some k => wdefTypeOf ((c :: rest).take k) :: allWdefMatches ((c :: rest).drop (max k 1))
    | none => allWdefMatches rest
termination_by l.length
decreasing_by
  all_goals simp [List.length_drop]

/-- Anchored match of `q\s*=\s*"([^"]+)"`: capture and match length. -/
def qMatchAt (l : List Char) : Option (String × Nat) :=
  match l with
  | ('q') :: r0 =>
    let w1 := r0.takeWhile isWsChar
    match r0.drop w1.length with
    | ('=') :: r1 =>
      let w2 := r1.takeWhile isWsChar
      match r1.drop w2.length with
      | ('"') :: r2 =>
        let q := r2.takeWhile (fun c => c ≠ ('"'))
        if q.isEmpty then none else
        match r2.drop q.length with
        | ('"') :: _ => some (String.mk q, 1 + w1.length + 1 + w2.length + 1 + q.length + 1)
        | _ => none
      | _ => none
    | _ => none
  | _ => none

/-- All global matches of the metric-query regex (script.js:2519). -/
def allQMatches (l : List Char) : List String :=
  match l with
  | [] => []
  | c :: rest =>
    match qMatchAt (c :: rest) with
    | some (q, k) => q :: allQMatches ((c :: rest).drop (max k 1))
    | none => allQMatches rest
termination_by l.length
decreasing_by
  all_goals simp [List.length_drop]

/-- Anchored match of `(background_color|color)\s*=\s*"([^"]+)"`:
the alternation tries `background_color` first. -/
def colorMatchAt (l : List Char) : Option (String × String × Nat) :=
  let tryName : String → Option (String × String × Nat) := fun nm =>
    if nm.toList.isPrefixOf l then
      let r0 := l.drop nm.toList.length
      let w1 := r0.takeWhile isWsChar
      match r0.drop w1.length with
      | ('=') :: r1 =>
        let w2 := r1.takeWhile isWsChar
        match r1.drop w2.length with
        | ('"') :: r2 =>
          let q := r2.takeWhile (fun c => c ≠ ('"'))
          if q.isEmpty then none else
          match r2.drop q.length with
          | ('"') :: _ =>
            some (nm, String.mk q,
              nm.toList.length + w1.length + 1 + w2.length + 1 + q.length + 1)
          | _ => none
        | _ => none
      | _ => none
    else none
  match tryName ("background_color") with
  | some x => some x
  | none => tryName ("color")

/-- All global matches of the color-field regex (script.js:2532). -/
def allColorMatches (l : List Char) : List (String × String) :=
  match l with
  | [] => []
  | c :: rest =>
    match colorMatchAt (c :: rest) with
    | some (nm, v, k) => (nm, v) :: allColorMatches ((c :: rest).drop (max k 1))
    | none => allColorMatches rest
termination_by l.length
decreasing_by
  all_goals simp [List.length_drop]

/-- The placeholder scan of the provider pass (script.js:2549-2566). -/
def placeholderIssues (content : String) : List Issue :=
  ([("DASHBOARD_ID_PLACEHOLDER", "Dashboard ID"),
    ("imported_dashboard", "Resource name"),
    ("Imported Dashboard", "Dashboard title")] : List (String × String)).flatMap
    (fun p =>
      if containsSub content p.1 then
        [⟨"info", "Consider using variables",
          p.2 ++ " appears to be hardcoded. Consider using Terraform variables for better reusability.",
          none, p.2⟩]
      else [])

/-- Embeds `validateDatadogProvider` (script.js:2469-2567): required
dashboard fields, layout-type allow-list, widget-kind allow-list, short
metric queries, color shapes, placeholder values. -/
def validateDatadogProvider (rules : ValidationRules) (content : String) : List Issue :=
  (rules.required_dashboard_fields.flatMap (fun field =>
    if !fieldAssignedCI content field then
      [⟨"error", "Missing required field: " ++ field,
        "Dashboard resource must include the \"" ++ field ++ "\" field.",
        none, "Dashboard resource"⟩]
    else [])) ++
  (match firstMatchOpt matchLayoutTypeAt content.toList with
   | some lt =>
     if !rules.valid_layout_types.contains lt then
       [⟨"error", "Invalid layout_type",
         "Layout type \"" ++ lt ++ "\" is not valid. Must be one of: " ++
           jsJoin (", ") rules.valid_layout_types ++ ".",
         none, "Dashboard resource"⟩]
     else []
   | none => []) ++
  ((allWdefMatches content.toList).flatMap (fun wt =>
    if !rules.valid_widget_types.contains wt then
      [⟨"warning", "Unknown widget type",
        "Widget type \"" ++ wt ++ "\" might not be supported by the Datadog provider.",
        none, "Widget: " ++ wt ++ "_definition"⟩]
    else [])) ++
  ((allQMatches content.toList).flatMap (fun q =>
    if q.length < 3 then
      [⟨"warning", "Suspiciously short metric query",
        "Metric query \"" ++ q ++ "\" seems too short. Verify it's a valid Datadog metric query.",
        none, "Widget request"⟩]
    else [])) ++
  ((allColorMatches content.toList).flatMap (fun p =>
    if !validColor p.2 then
      [⟨"warning", "Invalid color format",
        "Color value \"" ++ p.2 ++ "\" should be a hex color (#RRGGBB) or a valid color name.",
        none, "Color field: " ++ p.1⟩]
    else [])) ++
  placeholderIssues content

/-- Length of the leading-whitespace run, `line.match(/^(\s*)/)[1].length`. -/
def leadingWsCount (line : String) : Nat := (line.toList.takeWhile isWsChar).length

/-- The indentation-consistency fold of the best-practices pass
(script.js:2570-2598): expected indent tracked via brace depth, only
the first deviation flagged, blank lines skipped. -/
def indentIssuesAux (idx : Nat) (expected : Int) (flagged : Bool) : List String → List Issue
  | [] => []
  | line :: rest =>
    if jsTrim line = "" then indentIssuesAux (idx + 1) expected flagged rest
    else
      let actual : Int := leadingWsCount line
      let t := jsTrim line
      let expected2 :=
        if strEndsWith t ("\x7b") then expected + 2
        else if t = "\x7d" then expected - 2
        else expected
      if (actual - expected2).natAbs > 2 ∧ !flagged then
        ⟨"info", "Inconsistent indentation",
          "Consider using consistent 2-space indentation for better readability.",
          some (idx + 1), "Line " ++ toString (idx + 1)⟩ ::
          indentIssuesAux (idx + 1) expected2 true rest
      else indentIssuesAux (idx + 1) expected2 flagged rest

/-- The long-line scan (script.js:2601-2610). -/
def longLineIssues (lines : List String) : List Issue :=
  lines.enum.flatMap (fun p =>
    if p.2.length > 120 then
      [⟨"info", "Long line",
        "Consider breaking long lines for better readability (recommended: < 120 characters).",
        some (p.1 + 1), "Line " ++ toString (p.1 + 1) ++ " (" ++ toString p.2.length ++ " characters)"⟩]
    else [])

/-- One character of the UUID-shape class `[a-f0-9-]`. -/
def isUuidChar (c : Char) : Bool :=
  isDigitChar c ∨ (('a') ≤ c ∧ c ≤ ('f')) ∨ c = ('-')

/-- Anchored match of `"[a-f0-9-]{36}"`. -/
def uuidLikeAt (l : List Char) : Bool :=
  match l with
  | ('"') :: rest =>
    let first36 := rest.take 36
    decide (first36.length = 36) && first36.all isUuidChar && headIs ('"') (rest.drop 36)
  | _ => false

/-- The hardcoded-value info finding (script.js:2613-2630). -/
def hardcodedIssue (sugg : String) : Issue :=
  ⟨"info", "Consider using variables",
    sugg ++ " appears to be hardcoded. Consider using Terraform variables for better reusability.",
    none, sugg⟩

/-- Embeds `validateBestPractices` (script.js:2569-2631).  The
environment and region regexes `/"prod|staging|dev"/i` and
`/"us-east-1|us-west-2|eu-west-1"/i` alternate at top level, so the
quote belongs only to the first and last alternative. -/
def validateBestPractices (content : String) : List Issue :=
  let lines := jsSplitOn content ("\n")
  let lc := strToLower content
  indentIssuesAux 0 0 false lines ++
  longLineIssues lines ++
  (if !containsSub content ("#") && !containsSub content ("//") then
    [⟨"info", "No comments found",
      "Consider adding comments to explain complex configurations.",
      none, "Overall structure"⟩]
   else []) ++
  (if anySuffix uuidLikeAt content.toList then [hardcodedIssue ("Dashboard ID")] else []) ++
  (if containsSub lc ("\"prod") || containsSub lc ("staging") || containsSub lc ("dev\"") then
    [hardcodedIssue ("Environment")]
   else []) ++
  (if containsSub lc ("\"us-east-1") || containsSub lc ("us-west-2") || containsSub lc ("eu-west-1\"") then
    [hardcodedIssue ("Region")]
   else [])

/-- Embeds `performHCLValidation` (script.js:2218-2249): the four
passes in order, then the aggregate validity flag and the per-severity
counters. -/
def performHCLValidation (rules : ValidationRules) (content : String) : ValidationResult :=
  let lines := jsSplitOn content ("\n")
  let issues := validateBasicSyn lines ++ validateTerraformStructure content ++
    validateDatadogProvider rules content ++ validateBestPractices content
  let errors := issues.filter (fun i => i.severity == "error")
  let warnings := issues.filter (fun i => i.severity == "warning")
  let infos := issues.filter (fun i => i.severity == "info")
  ⟨decide (errors.length = 0), issues,
    ⟨errors.length, warnings.length, infos.length, issues.length⟩⟩

/-- JavaScript `typeof v === 'object'` on a parsed JSON value (`null`
also has typeof `object`). -/
def jsTypeofObject : HValue → Bool
  | .obj _ => true
  | .arr _ => true
  | .null => true
  | _ => false

/-- An object-like parsed value: passes both the truthiness and the
typeof test of `validateDashboardData` (objects and arrays). -/
def isObjectLikeInput : HValue → Bool
  | .obj _ => true
  | .arr _ => true
  | _ => false

/-- JavaScript property access on an arbitrary parsed value: only
objects carry the generator's named fields. -/
def getProp (v : HValue) (k : String) : Option HValue :=
  match v with
  | .obj fs => lookupProp fs k
  | _ => none

/-- Embeds `validateDashboardData` (script.js:224-242): the thrown
error message, if any.  The console warnings it also produces do not
affect control flow and are not modelled. -/
def validateDashboardData (v : HValue) : Option String :=
  if !v.truthy || !jsTypeofObject v then
    some ("Invalid JSON: Expected an object")
  else if !optTruthy (getProp v ("title")) && !optTruthy (getProp v ("id")) then
    some ("Dashboard must have either a title or id field")
  else none

/-- Embeds `escapeHCLString` (script.js:1476-1488) over an arbitrary
value: strings are escaped and quoted; anything else is coerced by the
template literal and quoted without escaping. -/
def escapeHCLString : HValue → String
  | .str s => escapeHCLStr s
  | v => "\"" ++ hvToJSString v ++ "\""

/-- The log search expression of a query (`query.search.query`),
`undefined` when the search object is absent. -/
def querySearchText (q : Query) : Option String :=
  match q.search with
  | some se => se.query
  | none => none

/-- The legacy downgrade rule exactly as claim C7 words it: prefer the
metric query expression, then the log search expression, then — for a
logs query with a compute aggregation — a synthesised
`aggregation:metric` expression with any log search text concatenated
after it. -/
def specLegacyDowngrade (q : Query) : Option String :=
  if optStrTruthy q.query then q.query
  else if optStrTruthy (querySearchText q) then querySearchText q
  else if q.data_source = some ("logs") ∧
      (match q.compute with
       | some co => optStrTruthy co.aggregation
       | none => false) = true then
    some ((match q.compute with
           | some co =>
             co.aggregation.getD ("") ++ ":" ++
               (if optStrTruthy co.metric then co.metric.getD ("") else "")
           | none => "") ++
          (if optStrTruthy (querySearchText q) then
            " " ++ (querySearchText q).getD ("")
           else ""))
  else none

/-- Stack-based brace matching over a character sequence: the number of
unmatched opening and unmatched closing braces in the proper matching
sense.  This is the reading of "text containing exactly one unmatched
opening brace" in claim C8; the validator instead tracks a net count. -/
def braceScan (opens closes : Nat) : List Char → Nat × Nat
  | [] => (opens, closes)
  | c :: rest =>
    if c = ('\x7b') then braceScan (opens + 1) closes rest
    else if c = ('\x7d') then
      (if opens > 0 then braceScan (opens - 1) closes rest
       else braceScan opens (closes + 1) rest)
    else braceScan opens closes rest

/-- Number of unmatched opening braces of a text. -/
def unmatchedOpenBraces (s : String) : Nat := (braceScan 0 0 s.toList).1

/-- Number of unmatched closing braces of a text. -/
def unmatchedCloseBraces (s : String) : Nat := (braceScan 0 0 s.toList).2

/-- Collapsing preserves the head character. -/
theorem collapse_cons (l : List Char) :
    ∀ c : Char, ∃ t, collapseUnderscores (c :: l) = c :: t := by
  induction l with
  | nil => intro c; exact ⟨[], rfl⟩
  | cons e r2 ih =>
    intro c
    by_cases h : c = ('_') ∧ e = ('_')
    · obtain ⟨t, ht⟩ := ih e
      refine ⟨t, ?_⟩
      rw [show collapseUnderscores (c :: e :: r2) = collapseUnderscores (e :: r2) by
        simp [collapseUnderscores, h], ht, h.1, h.2]
    · exact ⟨collapseUnderscores (e :: r2), by simp [collapseUnderscores, h]⟩

/-- The tail of a list without adjacent underscores has none either. -/
theorem noAdj_tail {a : Char} {l : List Char}
    (h : noAdjUnderscore (a :: l) = true) : noAdjUnderscore l = true := by
  cases l with
  | nil => rfl
  | cons b t =>
    by_cases hab : a = ('_') ∧ b = ('_')
    · simp [noAdjUnderscore, hab] at h
    · simpa [noAdjUnderscore, hab] using h

/-- Collapsing underscore runs leaves no adjacent underscores. -/
theorem noAdj_collapse (l : List Char) :
    noAdjUnderscore (collapseUnderscores l) = true := by
  induction l using collapseUnderscores.induct with
  | case1 => rfl
  | case2 c => rfl
  | case3 c d rest h ih =>
    rw [show collapseUnderscores (c :: d :: rest) = collapseUnderscores (d :: rest) by
      simp [collapseUnderscores, h]]
    exact ih
  | case4 c d rest h ih =>
    rw [show collapseUnderscores (c :: d :: rest) = c :: collapseUnderscores (d :: rest) by
      simp [collapseUnderscores, h]]
    obtain ⟨t, ht⟩ := collapse_cons rest d
    rw [ht]
    rw [ht] at ih
    by_cases hcd : c = ('_') ∧ d = ('_')
    · exact absurd hcd h
    · simpa [noAdjUnderscore, hcd] using ih

/-- Without adjacent underscores, removing one leading underscore is a
full leading trim. -/
theorem dropFirst_eq_dropWhile {l : List Char}
    (h : noAdjUnderscore l = true) :
    dropFirstUnderscore l = l.dropWhile isUnderscore := by
  cases l with
  | nil => rfl
  | cons c rest =>
    by_cases hc : c = ('_')
    · subst hc
      cases rest with
      | nil => rfl
      | cons b t =>
        by_cases hb : b = ('_')
        · simp [noAdjUnderscore, hb] at h
        · simp [dropFirstUnderscore, List.dropWhile, isUnderscore, hb]
    · simp [dropFirstUnderscore, List.dropWhile, isUnderscore, hc]

/-- Removing one leading underscore preserves adjacency-freedom. -/
theorem noAdj_dropFirst {l : List Char}
    (h : noAdjUnderscore l = true) :
    noAdjUnderscore (dropFirstUnderscore l) = true := by
  cases l with
  | nil => exact h
  | cons c rest =>
    by_cases hc : c = ('_')
    · subst hc
      simpa [dropFirstUnderscore] using noAdj_tail h
    · simpa [dropFirstUnderscore, hc] using h

/-- A non-empty all-underscore list without adjacent underscores is the
singleton underscore. -/
theorem all_underscore_singleton {rest : List Char}
    (hne : rest ≠ []) (hall : ∀ x ∈ rest, isUnderscore x = true)
    (hna : noAdjUnderscore rest = true) : rest = [('_')] := by
  cases rest with
  | nil => exact absurd rfl hne
  | cons d t =>
    have hd : d = ('_') := by
      have := hall d (by simp)
      simpa [isUnderscore] using this
    cases t with
    | nil => rw [hd]
    | cons e t2 =>
      have he : e = ('_') := by
        have := hall e (by simp)
        simpa [isUnderscore] using this
      simp [noAdjUnderscore, hd, he] at hna

/-- Without adjacent underscores, removing one trailing underscore is a
full trailing trim. -/
theorem dropLast_eq_trimAll {l : List Char}
    (h : noAdjUnderscore l = true) :
    dropLastUnderscore l = ((l.reverse.dropWhile isUnderscore).reverse : List Char) := by
  induction l with
  | nil => rfl
  | cons c rest ih =>
    cases hr : rest with
    | nil =>
      by_cases hc : c = ('_')
      · simp [dropLastUnderscore, hc, List.dropWhile, isUnderscore]
      · simp [dropLastUnderscore, hc, List.dropWhile, isUnderscore]
    | cons d t =>
      rw [← hr]
      have hrest : noAdjUnderscore rest = true := noAdj_tail h
      have hrne : rest ≠ [] := by rw [hr]; simp
      have hstep : (c :: rest).reverse.dropWhile isUnderscore =
          (rest.reverse ++ [c]).dropWhile isUnderscore := by
        rw [List.reverse_cons]
      rw [hstep, List.dropWhile_append]
      by_cases hnil : (rest.reverse.dropWhile isUnderscore).isEmpty
      · have hall : ∀ x ∈ rest, isUnderscore x = true := by
          intro x hx
          have h1 : ∀ x ∈ rest.reverse, isUnderscore x = true :=
            List.dropWhile_eq_nil_iff.mp (List.isEmpty_iff.mp hnil)
          exact h1 x (List.mem_reverse.mpr hx)
        have hsing : rest = [('_')] := all_underscore_singleton hrne hall hrest
        have hc : c ≠ ('_') := by
          intro hc
          rw [hsing, hc] at h
          simp [noAdjUnderscore] at h
        rw [if_pos hnil, hsing]
        simp [dropLastUnderscore, List.dropWhile, isUnderscore, hc]
      · rw [if_neg hnil]
        have htail : dropLastUnderscore (c :: rest) = c :: dropLastUnderscore rest := by
          rw [hr]; simp [dropLastUnderscore]
        rw [htail, ih hrest]
        simp

/-- The source's sanitising chain coincides with the specification's
pipeline. -/
theorem sanitize_eq_spec (t : String) :
    sanitizeResourceName t = specSanitizeResourceName t := by
  unfold sanitizeResourceName specSanitizeResourceName replaceNonNameChars
  set c := collapseUnderscores
    ((t.toList.map Char.toLower).map (fun c => if isNameChar c then c else ('_'))) with hc
  have hna : noAdjUnderscore c = true := by
    rw [hc]
    exact noAdj_collapse _
  have h1 : dropFirstUnderscore c = c.dropWhile isUnderscore := dropFirst_eq_dropWhile hna
  have hna2 : noAdjUnderscore (c.dropWhile isUnderscore) = true := by
    rw [← h1]
    exact noAdj_dropFirst hna
  rw [h1, dropLast_eq_trimAll hna2]

/-- Claim C2, counterexample: for the non-empty title `"!!!"` the
pipeline the claim describes (lower-case, replace, collapse, trim,
truncate — with a fallback only for an empty or absent title) yields
the empty string, but the generator returns the fallback
`imported_dashboard`, so the claimed equality fails at this input. -/
theorem C2_resource_name_cex :
    specSanitizeResourceName ("!!!") = "" ∧
    ("!!!" : String) ≠ "" ∧
    generateResourceName ("!!!") = "imported_dashboard" := by
  refine ⟨rfl, by decide, rfl⟩

/-- Claim C2 as amended: for every title, the generated resource name
is the claim's pipeline (lower-case, replace characters outside
`[a-z0-9_]` by underscore, collapse repeated underscores, trim leading
and trailing underscores, truncate to 50 characters) with the fallback
`imported_dashboard` whenever the sanitised result is empty — in
particular for an empty or absent title, which the dashboard emitter
maps to the fallback before sanitising.  `"Sample Application
Dashboard"` yields `sample_application_dashboard`. -/
theorem C2_resource_name :
    (∀ t : String, generateResourceName t =
      (if specSanitizeResourceName t = "" then "imported_dashboard"
       else specSanitizeResourceName t)) ∧
    generateResourceName ("Sample Application Dashboard") = "sample_application_dashboard" ∧
    generateResourceName (jsOrStr (some ("")) ("imported_dashboard")) = "imported_dashboard" ∧
    generateResourceName (jsOrStr none ("imported_dashboard")) = "imported_dashboard" := by
  refine ⟨?_, rfl, rfl, rfl⟩
  intro t
  rw [generateResourceName, sanitize_eq_spec]

/-- Claim C10: a non-empty title whose sanitisation collapses to
nothing gets the fallback `imported_dashboard`, the same resource name
an absent title receives. -/
theorem C10_empty_sanitization_fallback (t : String)
    (_h1 : t ≠ "") (h2 : sanitizeResourceName t = "") :
    generateResourceName t = "imported_dashboard" ∧
    generateResourceName t = generateResourceName (jsOrStr none ("imported_dashboard")) := by
  have hg : generateResourceName t = "imported_dashboard" := by
    rw [generateResourceName, h2]
    rfl
  exact ⟨hg, by rw [hg]; rfl⟩

/-- Witness for C10 at the concrete title `"!!!"`. -/
theorem C10_empty_sanitization_fallback_witness :
    generateResourceName ("!!!") = "imported_dashboard" ∧
    generateResourceName ("!!!") =
      generateResourceName (jsOrStr none ("imported_dashboard")) :=
  C10_empty_sanitization_fallback ("!!!") (by decide) (by rfl)

/-- Claim C1: both request emitters emit a request block for a request
exactly when it has valid content — a non-empty flat query string, or a
non-empty queries sequence, or a non-empty formulas sequence — and a
request without valid content contributes nothing to the output (the
emitters are total functions, so no error is raised). -/
theorem C1_request_suppression (r : Request) (rs : List Request) :
    (hasValidRequestContent r = true ↔
      (optStrTruthy r.q = true ∨
        (∃ l, r.queries = some l ∧ l ≠ []) ∨
        (∃ l, r.formulas = some l ∧ l ≠ []))) ∧
    (hasValidRequestContent r = false →
      generateModernRequests (r :: rs) = generateModernRequests rs ∧
      generateLegacyRequests (r :: rs) = generateLegacyRequests rs) ∧
    (hasValidRequestContent r = true →
      generateModernRequests (r :: rs) =
        ("\n      request \x7b\n" ++ modernRequestBody r ++ "      \x7d\n") ++
          generateModernRequests rs ∧
      generateLegacyRequests (r :: rs) =
        ("\n      request \x7b\n" ++ legacyRequestBody r ++ "      \x7d\n") ++
          generateLegacyRequests rs) := by
  refine ⟨?_, ?_, ?_⟩
  · obtain ⟨q, agg, dt, ory, cf, fs, qs, st⟩ := r
    cases qs <;> cases fs <;>
      simp [hasValidRequestContent, List.length_pos, or_assoc]
  · intro h
    constructor <;> simp [generateModernRequests, generateLegacyRequests, h]
  · intro h
    constructor <;> simp [generateModernRequests, generateLegacyRequests, h]

/-- Witness for C1: a request with no content is dropped; one with a
flat query is emitted as a request block. -/
theorem C1_request_suppression_witness :
    (generateModernRequests [(⟨none, none, none, none, none, none, none, none⟩ : Request)] =
      generateModernRequests []) ∧
    (generateModernRequests [(⟨some ("x"), none, none, none, none, none, none, none⟩ : Request)] =
      ("\n      request \x7b\n" ++
        modernRequestBody ⟨some ("x"), none, none, none, none, none, none, none⟩ ++
        "      \x7d\n") ++ generateModernRequests []) :=
  ⟨((C1_request_suppression ⟨none, none, none, none, none, none, none, none⟩ []).2.1
      (by rfl)).1,
   ((C1_request_suppression ⟨some ("x"), none, none, none, none, none, none, none⟩ []).2.2
      (by rfl)).1⟩

/-- Claim C3, counterexample: the input object `{"title": ""}` is a
keyed structure and has a title field, yet validation raises the
missing-title/id error, because the source tests JavaScript truthiness
(`!data.title && !data.id`), not field presence. -/
theorem C3_validation_cex :
    validateDashboardData (.obj [(("title" : String), .str (""))]) =
      some ("Dashboard must have either a title or id field") ∧
    isObjectLikeInput (.obj [(("title" : String), .str (""))]) = true ∧
    (lookupProp [(("title" : String), .str (""))] ("title")).isSome = true := by
  exact ⟨rfl, rfl, rfl⟩

/-- Claim C3 as amended: validation raises an input-validation error if
and only if the parsed input is not object-like (not an object or
array), or both its title and its identifier are JavaScript-falsy
(absent, null, false, zero, or the empty string).  The validation runs
before any emission, and in the embedding the emitter itself is a total
function, so every input passing validation completes emission. -/
theorem C3_validation_amended (v : HValue) :
    (validateDashboardData v).isSome = true ↔
      (isObjectLikeInput v = false ∨
        (optTruthy (getProp v ("title")) = false ∧
          optTruthy (getProp v ("id")) = false)) := by
  cases v <;>
    simp [validateDashboardData, isObjectLikeInput, getProp, jsTypeofObject,
      HValue.truthy, optTruthy]

/-- Character replacement distributes over list append. -/
theorem jsReplaceChar_append (c : Char) (rep : List Char) (a b : List Char) :
    jsReplaceChar c rep (a ++ b) = jsReplaceChar c rep a ++ jsReplaceChar c rep b := by
  induction a with
  | nil => rfl
  | cons x xs ih => simp [jsReplaceChar, ih]

/-- The sequential escape chain acts character-wise. -/
theorem escapeHCLChars_flatMap (l : List Char) :
    escapeHCLChars l = l.flatMap escChar := by
  induction l with
  | nil => rfl
  | cons x xs ih =>
    have hsplit : escapeHCLChars (x :: xs) = escapeHCLChars [x] ++ escapeHCLChars xs := by
      show escapeHCLChars ([x] ++ xs) = _
      simp only [escapeHCLChars, jsReplaceChar_append]
    rw [hsplit, ih, List.flatMap_cons]
    congr 1
    by_cases h1 : x = ('\\')
    · subst h1; rfl
    · by_cases h2 : x = ('"')
      · subst h2; rfl
      · by_cases h3 : x = ('\n')
        · subst h3; rfl
        · by_cases h4 : x = ('\r')
          · subst h4; rfl
          · by_cases h5 : x = ('\t')
            · subst h5; rfl
            · simp [escapeHCLChars, jsReplaceChar, escChar, h1, h2, h3, h4, h5]

/-- Claim C4, counterexample: the vertical-tab character (a control
character) passes through the escaper unchanged, so the output is not
free of unescaped control characters. -/
theorem C4_escaper_cex :
    escapeHCLString (.str (String.mk [('\x0b')])) = String.mk [('"'), ('\x0b'), ('"')] ∧
    ('\x0b').toNat < 32 := by
  exact ⟨rfl, by decide⟩

/-- Claim C4 as amended: the formatter is total; a string is wrapped in
quotes with backslash, double quote, newline, carriage return and tab
each replaced by their two-character escapes, so the escaped body
contains no newline, carriage-return or tab characters, and any control
character remaining in it was already present in the input (and is none
of those three); non-string inputs are coerced to their quoted string
form. -/
theorem C4_escaper_total :
    (∀ s : String,
      escapeHCLString (.str s) = "\"" ++ String.mk (s.toList.flatMap escChar) ++ "\"") ∧
    (∀ s : String, ∀ c ∈ s.toList.flatMap escChar,
      c ≠ ('\n') ∧ c ≠ ('\r') ∧ c ≠ ('\t')) ∧
    (∀ s : String, ∀ c ∈ s.toList.flatMap escChar, c.toNat < 32 → c ∈ s.toList) ∧
    (∀ b : Bool, escapeHCLString (.bool b) = "\"" ++ boolStr b ++ "\"") ∧
    (∀ n : Int, escapeHCLString (.num n) = "\"" ++ toString n ++ "\"") ∧
    escapeHCLString .null = "\"null\"" := by
  refine ⟨?_, ?_, ?_, fun b => by simp [escapeHCLString, hvToJSString],
    fun n => by simp [escapeHCLString, hvToJSString], by simp [escapeHCLString, hvToJSString]⟩
  · intro s
    show escapeHCLStr s = _
    rw [escapeHCLStr, escapeHCLChars_flatMap]
  · intro s c hc
    obtain ⟨a, _, hca⟩ := List.mem_flatMap.mp hc
    unfold escChar at hca
    split_ifs at hca with h1 h2 h3 h4 h5 <;>
      simp_all <;> rcases hca with h | h <;> simp [h]
  · intro s c hc hctl
    obtain ⟨a, ha, hca⟩ := List.mem_flatMap.mp hc
    unfold escChar at hca
    split_ifs at hca with h1 h2 h3 h4 h5
    · rcases List.mem_pair.mp hca with h | h <;> simp [h] at hctl
    · rcases List.mem_pair.mp hca with h | h <;> simp [h] at hctl
    · rcases List.mem_pair.mp hca with h | h <;> simp [h] at hctl
    · rcases List.mem_pair.mp hca with h | h <;> simp [h] at hctl
    · rcases List.mem_pair.mp hca with h | h <;> simp [h] at hctl
    · rw [List.mem_singleton.mp hca]
      exact ha

/-- Witness for C4 at a concrete escaped string and character. -/
theorem C4_escaper_total_witness :
    (('\\') ≠ ('\n') ∧ ('\\') ≠ ('\r') ∧ ('\\') ≠ ('\t')) ∧
    escapeHCLString (.str ("a\nb")) = "\"" ++ String.mk (("a\nb").toList.flatMap escChar) ++ "\"" :=
  ⟨C4_escaper_total.2.1 ("\n") ('\\') (by decide), C4_escaper_total.1 ("a\nb")⟩

/-- Claim C5: for every validation run, the validity flag is true
exactly when the finding list contains no error-severity findings (a
warnings/infos-only result is therefore still valid), and the summary
carries per-severity counts and a total matching the finding list. -/
theorem C5_validity_iff_no_errors (rules : ValidationRules) (content : String) :
    ((performHCLValidation rules content).isValid = true ↔
      ((performHCLValidation rules content).issues.filter
        (fun i => i.severity == "error")).length = 0) ∧
    (performHCLValidation rules content).summary.errors =
      ((performHCLValidation rules content).issues.filter
        (fun i => i.severity == "error")).length ∧
    (performHCLValidation rules content).summary.warnings =
      ((performHCLValidation rules content).issues.filter
        (fun i => i.severity == "warning")).length ∧
    (performHCLValidation rules content).summary.infos =
      ((performHCLValidation rules content).issues.filter
        (fun i => i.severity == "info")).length ∧
    (performHCLValidation rules content).summary.total =
      (performHCLValidation rules content).issues.length := by
  simp [performHCLValidation]

/-- Claim C6, counterexample: a layout supplying height 0 is emitted
with height 8 — the JavaScript `layout.height || 8` treats a present
zero like a missing value, so supplied dimensions are not always
emitted as given. -/
theorem C6_widget_layout_cex :
    (WLayout.mk none none none (some 0)).height = some 0 ∧
    widgetLayoutBlock ⟨none, none, none, some 0⟩ =
      "    widget_layout \x7b\n      height          = 8\n      is_column_break = false\n      width           = 12\n      x               = 0\n      y               = 0\n    \x7d\n\n" ∧
    (0 : Int) ≠ 8 := by
  exact ⟨rfl, rfl, by decide⟩

/-- Claim C6 as amended: when a widget's layout is present the emitter
emits a `widget_layout` sub-block with fields in the fixed order
height, `is_column_break` (constant false), width, x, y; a missing or
zero height defaults to 8, a missing or zero width to 12, a missing x
or y to 0, and non-zero supplied dimensions are emitted with their
given values.  The nested-widget emitter produces the same block at a
deeper indent. -/
theorem C6_widget_layout (m : List (String × WidgetConfig)) (id : Option String)
    (l : WLayout) (dopt : Option WDef) :
    (∃ rest, generateModernWidgetHCL m (Widget.mk id (some l) dopt) =
      "\n  widget \x7b\n" ++
        (if optStrTruthy id then "    id = \"" ++ id.getD ("") ++ "\"\n" else "") ++
        widgetLayoutBlock l ++ rest ++ "  \x7d\n") ∧
    widgetLayoutBlock l =
      "    widget_layout \x7b\n" ++
        "      height          = " ++ toString (jsOrInt l.height 8) ++ "\n" ++
        "      is_column_break = false\n" ++
        "      width           = " ++ toString (jsOrInt l.width 12) ++ "\n" ++
        "      x               = " ++ toString (jsOrInt l.x 0) ++ "\n" ++
        "      y               = " ++ toString (jsOrInt l.y 0) ++ "\n" ++
        "    \x7d\n\n" ∧
    ((l.height = none ∨ l.height = some 0) → jsOrInt l.height 8 = 8) ∧
    (∀ n : Int, l.height = some n → n ≠ 0 → jsOrInt l.height 8 = n) ∧
    ((l.width = none ∨ l.width = some 0) → jsOrInt l.width 12 = 12) ∧
    (∀ n : Int, l.width = some n → n ≠ 0 → jsOrInt l.width 12 = n) ∧
    ((l.x = none ∨ l.x = some 0) → jsOrInt l.x 0 = 0) ∧
    (∀ n : Int, l.x = some n → n ≠ 0 → jsOrInt l.x 0 = n) ∧
    ((l.y = none ∨ l.y = some 0) → jsOrInt l.y 0 = 0) ∧
    (∀ n : Int, l.y = some n → n ≠ 0 → jsOrInt l.y 0 = n) ∧
    nestedWidgetLayoutBlock l =
      "        widget_layout \x7b\n" ++
        "          height          = " ++ toString (jsOrInt l.height 8) ++ "\n" ++
        "          is_column_break = false\n" ++
        "          width           = " ++ toString (jsOrInt l.width 12) ++ "\n" ++
        "          x               = " ++ toString (jsOrInt l.x 0) ++ "\n" ++
        "          y               = " ++ toString (jsOrInt l.y 0) ++ "\n" ++
        "        \x7d\n\n" := by
  refine ⟨⟨_, rfl⟩, rfl, ?_, ?_, ?_, ?_, ?_, ?_, ?_, ?_, rfl⟩
  · rintro (h | h) <;> simp [jsOrInt, h]
  · intro n h hn; simp [jsOrInt, h, hn]
  · rintro (h | h) <;> simp [jsOrInt, h]
  · intro n h hn; simp [jsOrInt, h, hn]
  · rintro (h | h) <;> simp [jsOrInt, h]
  · intro n h hn; simp [jsOrInt, h, hn]
  · rintro (h | h) <;> simp [jsOrInt, h]
  · intro n h hn; simp [jsOrInt, h, hn]

/-- Witness for C6 at a layout with x 3, y absent, width 0, height 5. -/
theorem C6_widget_layout_witness :
    jsOrInt (WLayout.mk (some 3) none (some 0) (some 5)).height 8 = 5 ∧
    jsOrInt (WLayout.mk (some 3) none (some 0) (some 5)).width 12 = 12 ∧
    jsOrInt (WLayout.mk (some 3) none (some 0) (some 5)).x 0 = 3 ∧
    jsOrInt (WLayout.mk (some 3) none (some 0) (some 5)).y 0 = 0 :=
  ⟨(C6_widget_layout [] none ⟨some 3, none, some 0, some 5⟩ none).2.2.2.1 5 rfl (by decide),
   (C6_widget_layout [] none ⟨some 3, none, some 0, some 5⟩ none).2.2.2.2.1 (Or.inr rfl),
   (C6_widget_layout [] none ⟨some 3, none, some 0, some 5⟩ none).2.2.2.2.2.2.2.1 3 rfl (by decide),
   (C6_widget_layout [] none ⟨some 3, none, some 0, some 5⟩ none).2.2.2.2.2.2.2.2.1 (Or.inl rfl)⟩

/-- A string with a colon spliced in is never empty. -/
theorem colon_append_ne (a b : String) : a ++ ":" ++ b ≠ "" := by
  intro h
  have h2 := congrArg String.length h
  simp [String.length_append] at h2
  exact absurd h2.1.2 (by decide)

/-- The legacy downgrade the source computes coincides with the
preference chain of the specification. -/
theorem legacyQ_eq_spec (q : Query) : legacyQFromQuery q = specLegacyDowngrade q := by
  obtain ⟨ds, nm, qq, agg, mt, se, co⟩ := q
  by_cases h1 : optStrTruthy qq
  · simp [legacyQFromQuery, specLegacyDowngrade, h1]
  · cases se with
    | none =>
      by_cases h3 : ds = some ("logs")
      · cases co with
        | none => simp [legacyQFromQuery, specLegacyDowngrade, querySearchText, h1, h3]
        | some c =>
          by_cases h4 : optStrTruthy c.aggregation
          · have hnone : optStrTruthy (none : Option String) = false := rfl
            simp [legacyQFromQuery, specLegacyDowngrade, querySearchText, h1, h3, h4,
              colon_append_ne, String.append_empty, hnone]
          · simp [legacyQFromQuery, specLegacyDowngrade, querySearchText, h1, h3, h4]
      · simp [legacyQFromQuery, specLegacyDowngrade, querySearchText, h1, h3]
    | some s =>
      by_cases h2 : optStrTruthy s.query
      · simp [legacyQFromQuery, specLegacyDowngrade, querySearchText, h1, h2]
      · by_cases h3 : ds = some ("logs")
        · cases co with
          | none => simp [legacyQFromQuery, specLegacyDowngrade, querySearchText, h1, h2, h3]
          | some c =>
            by_cases h4 : optStrTruthy c.aggregation
            · simp [legacyQFromQuery, specLegacyDowngrade, querySearchText, h1, h2, h3, h4,
                colon_append_ne, String.append_empty]
            · simp [legacyQFromQuery, specLegacyDowngrade, querySearchText, h1, h2, h3, h4]
        · simp [legacyQFromQuery, specLegacyDowngrade, querySearchText, h1, h2, h3]

/-- Claim C7: for a legacy request with no flat query but a non-empty
queries sequence, the emitted flat `q` value is derived from the first
query exactly as specified — metric query expression first, else log
search expression, else the synthesised `aggregation:metric` expression
for a logs query with a compute aggregation, with any log search text
concatenated after it. -/
theorem C7_legacy_downgrade :
    (∀ q : Query, legacyQFromQuery q = specLegacyDowngrade q) ∧
    (∀ (r : Request) (q0 : Query) (qs : List Query),
      optStrTruthy r.q = false → r.queries = some (q0 :: qs) →
      legacyQPart r =
        (match specLegacyDowngrade q0 with
         | some v => "        q          = " ++ escapeHCLStr v ++ "\n"
         | none => "")) := by
  refine ⟨legacyQ_eq_spec, ?_⟩
  intro r q0 qs h1 h2
  unfold legacyQPart
  rw [if_neg (by simp [h1]), h2]
  simp only [List.head?]
  rw [legacyQ_eq_spec q0]

/-- Witness for C7 at a request whose only content is one metric
query. -/
theorem C7_legacy_downgrade_witness :
    legacyQPart
      ⟨none, none, none, none, none, none,
        some [⟨none, none, some ("avg:sys.cpu"), none, none, none, none⟩], none⟩ =
      (match specLegacyDowngrade ⟨none, none, some ("avg:sys.cpu"), none, none, none, none⟩ with
       | some v => "        q          = " ++ escapeHCLStr v ++ "\n"
       | none => "") :=
  C7_legacy_downgrade.2
    ⟨none, none, none, none, none, none,
      some [⟨none, none, some ("avg:sys.cpu"), none, none, none, none⟩], none⟩
    ⟨none, none, some ("avg:sys.cpu"), none, none, none, none⟩ [] (by rfl) rfl

/-- Every per-line finding of the syntax pass carries one of three
fixed titles, none of which is "Unmatched braces". -/
theorem lineSyntaxIssues_titles (idx : Nat) (line : String) (i : Issue)
    (h : i ∈ lineSyntaxIssues idx line) :
    i.title = "Unclosed string literal" ∨ i.title = "Invalid identifier" ∨
      i.title = "Potentially unquoted string" := by
  unfold lineSyntaxIssues at h
  simp only [List.mem_append] at h
  rcases h with (h | h) | h
  · split at h <;> simp_all
  · split at h
    · split at h <;> simp_all
    · simp_all
  · split at h
    · split at h
      · split at h <;> simp_all
      · simp_all
    · simp_all

/-- An unmatched-delimiter finding for a pair other than braces never
carries the braces title. -/
theorem unmatchedIssue_other_filter (c : Int) (what : String)
    (hw : ("Unmatched " ++ what == "Unmatched braces") = false) :
    (unmatchedIssue c what).filter (fun i => i.title == "Unmatched braces") = [] := by
  unfold unmatchedIssue
  split
  · simp [List.filter, hw]
  · rfl

/-- Claim C8, counterexample: the text `"}{"` contains exactly one
unmatched opening brace in the matching sense, yet the syntax pass
reports no "Unmatched braces" finding at all — it tracks only the net
opening-minus-closing count, which is zero here. -/
theorem C8_unmatched_brace_cex :
    unmatchedOpenBraces ("\x7d\x7b") = 1 ∧
    (validateBasicSyn [("\x7d\x7b")]).filter (fun i => i.title == "Unmatched braces") = [] := by
  exact ⟨rfl, rfl⟩

/-- Claim C8 as amended: for every text whose net brace count over the
validator's counted lines (non-blank, non-comment) equals one — in
particular any text whose only brace imbalance is a single extra
opening brace — the syntax pass produces exactly one error finding
titled "Unmatched braces" reporting magnitude 1. -/
theorem C8_unmatched_brace (lines : List String) (h : netBraceCount lines = 1) :
    (validateBasicSyn lines).filter (fun i => i.title == "Unmatched braces") =
      [⟨"error", "Unmatched braces", "Found 1 unmatched opening braces.", none,
        "Overall structure"⟩] := by
  unfold validateBasicSyn
  rw [List.filter_append, List.filter_append, List.filter_append]
  have h1 : (lines.enum.flatMap fun p =>
      if isCountedLine p.2 then lineSyntaxIssues p.1 p.2 else []).filter
        (fun i => i.title == "Unmatched braces") = [] := by
    rw [List.filter_eq_nil_iff]
    intro i hi
    obtain ⟨p, _, hip⟩ := List.mem_flatMap.mp hi
    have hmem : i ∈ lineSyntaxIssues p.1 p.2 := by
      by_cases hc : isCountedLine p.2
      · simpa [hc] using hip
      · simp [hc] at hip
    rcases lineSyntaxIssues_titles _ _ _ hmem with ht | ht | ht <;> simp [ht]
  have h2 : (unmatchedIssue (netBraceCount lines) ("braces")).filter
      (fun i => i.title == "Unmatched braces") =
        [⟨"error", "Unmatched braces", "Found 1 unmatched opening braces.", none,
          "Overall structure"⟩] := by
    rw [h]
    rfl
  rw [h1, h2, unmatchedIssue_other_filter _ ("brackets") (by rfl),
    unmatchedIssue_other_filter _ ("parentheses") (by rfl)]
  rfl

/-- Witness for C8 on the single line `"{"`. -/
theorem C8_unmatched_brace_witness :
    (validateBasicSyn [("\x7b")]).filter (fun i => i.title == "Unmatched braces") =
      [⟨"error", "Unmatched braces", "Found 1 unmatched opening braces.", none,
        "Overall structure"⟩] :=
  C8_unmatched_brace [("\x7b")] (by rfl)

/-- Claim C9: emission is deterministic — the generator is a pure
function of the dashboard document and the widget-mapping registry, so
any two invocations on equal inputs produce identical output strings;
no clock, randomness or other ambient state enters the embedding. -/
theorem C9_determinism (m1 m2 : List (String × WidgetConfig)) (d1 d2 : Dashboard)
    (hm : m1 = m2) (hd : d1 = d2) :
    generateHCL m1 d1 = generateHCL m2 d2 := by
  subst hm
  subst hd
  rfl

/-- Witness for C9 on a concrete dashboard. -/
theorem C9_determinism_witness :
    generateHCL []
        ⟨none, some ("T"), none, none, none, none, none, none, none, none, none⟩ =
      generateHCL []
        ⟨none, some ("T"), none, none, none, none, none, none, none, none, none⟩ :=
  C9_determinism [] []
    ⟨none, some ("T"), none, none, none, none, none, none, none, none, none⟩
    ⟨none, some ("T"), none, none, none, none, none, none, none, none, none⟩ rfl rfl
